import Mathlib

/-!
A verification development for the core simulation of ProgTextAdventure
(a browser survival text adventure).  The shallow embedding below follows
the JavaScript sources `game.js`, `gameData.js`, `room.js` and the graph
snapshot (`AdventureGraph`): pure data become Lean structures, the mutable
`Game` object becomes an explicit state record threaded through the
operations, and the DOM output area becomes an append-only list of output
lines carried in the state.  DOM-only work (`updateStats`, canvas drawing,
`window.open`) has no simulation effect and is dropped; every `addOutput`
call is kept.

One part of the repository is not present under `src/`: the iteration of
the `Room` class with conditional (lockable) exits.  Its callers are under
`src/` — `gameData.js` calls `addExit(direction, destinationId, locked,
unlockFlag)` with four arguments and `game.js` calls
`getExit(direction, gameState)` and reads `exit.destination`,
`exit.locked` and `exit.unlockCondition` — while the `room.js` snapshot in
`src/` still stores exits as plain destination strings.  The lockable-exit
representation and `Room.addExit`/`Room.getExit` are therefore modelled
from the spec (section 4.2); everything else is translated from the
sources.
-/

/-- One line of narrative output: `addOutput(text, className)` in game.js.
The DOM append and scrolling are presentation; the text and style class are
the observable result. -/
structure OutLine where
  text : String
  className : String
deriving DecidableEq, Repr

/-- The global flag bag initialised in the `Game` constructor
(game.js lines 28–39).  `cabinetMoved` and `tunnelRevealed` are not
initialised there but are read (and `tunnelRevealed` written) by
`examineItem` and `getExitsString`; a missing JS property reads as
`undefined`, i.e. false. -/
structure GState where
  basementUnlocked : Bool := false
  powerRestored : Bool := false
  fireExtinguished : Bool := false
  executiveUnlocked : Bool := false
  labUnlocked : Bool := false
  mechanicalFixed : Bool := false
  storageOpened : Bool := false
  elevatorUnlocked : Bool := false
  fuseInstalled : Bool := false
  elevatorAccess : Bool := false
  cabinetMoved : Bool := false
  tunnelRevealed : Bool := false
deriving DecidableEq, Repr

/-- Dynamic property read `gameState[flag]` (string-keyed, as in JS).
An unknown name reads as `undefined`, i.e. false. -/
def GState.get (gs : GState) (flag : String) : Bool :=
  match flag with
  | "basementUnlocked" => gs.basementUnlocked
  | "powerRestored" => gs.powerRestored
  | "fireExtinguished" => gs.fireExtinguished
  | "executiveUnlocked" => gs.executiveUnlocked
  | "labUnlocked" => gs.labUnlocked
  | "mechanicalFixed" => gs.mechanicalFixed
  | "storageOpened" => gs.storageOpened
  | "elevatorUnlocked" => gs.elevatorUnlocked
  | "fuseInstalled" => gs.fuseInstalled
  | "elevatorAccess" => gs.elevatorAccess
  | "cabinetMoved" => gs.cabinetMoved
  | "tunnelRevealed" => gs.tunnelRevealed
  | _ => false

/-- `gameState[exit.unlockCondition]` where the condition may be the JS
`null` (reads as `undefined`, i.e. false). -/
def GState.getOpt (gs : GState) : Option String → Bool
  | none => false
  | some f => gs.get f

/-- The content-authored `useEffect` closures of gameData.js (and the one
closure created inside `Game.removeFuse` in game.js) as a tagged variant,
interpreted by `Game.applyEffect` below.  Each tag corresponds to exactly
one `setUsable` call site in the sources. -/
inductive EffectTag where
  | medkit          -- gameData.js lines 34–39
  | energyDrink     -- gameData.js lines 46–51
  | basementKey     -- gameData.js lines 58–68
  | fuseBasement    -- gameData.js lines 75–106 (install at the basement panel)
  | fuseServers     -- game.js lines 786–832 (fuse re-created by removeFuse)
  | painkillers     -- gameData.js lines 120–125
  | coffee          -- gameData.js lines 132–137
  | extinguisher    -- gameData.js lines 151–164
  | accessCard      -- gameData.js lines 171–180
  | wrench          -- gameData.js lines 194–207
  | sedative        -- gameData.js lines 214–220
  | adrenaline      -- gameData.js lines 227–233
  | labKey          -- gameData.js lines 240–249
  | crowbar         -- gameData.js lines 270–283
deriving DecidableEq, Repr

/-- The `Item` class (room.js lines 157–183). -/
structure Item where
  id : String
  name : String
  description : String
  type : String
  canUse : Bool := false
  useEffect : Option EffectTag := none
deriving DecidableEq, Repr

/-- `Item.setUsable(effect)` (room.js lines 178–182). -/
def Item.setUsable (i : Item) (effect : EffectTag) : Item :=
  { i with canUse := true, useEffect := some effect }

/-- Modelled from the spec: one registered exit of the conditional-exit
`Room` iteration (spec section 3, Room attributes: `exits:
mapping(direction → {destinationId, locked: bool, unlockFlag: optional
string})`).  The field names follow the readers in game.js
(`exit.destination`, `exit.locked`, `exit.unlockCondition`). -/
structure ExitRec where
  destination : String
  locked : Bool
  unlockCondition : Option String
deriving DecidableEq, Repr

/-- Lookup in a JS object used as a string-keyed map (insertion-ordered
association list with unique keys). -/
def assocGet {β : Type} (l : List (String × β)) (k : String) : Option β :=
  match l with
  | [] => none
  | (k', v) :: rest => if k' = k then some v else assocGet rest k

/-- JS object property assignment `obj[k] = v`: replaces the value of an
existing key in place, otherwise appends the new key. -/
def assocSet {β : Type} (l : List (String × β)) (k : String) (v : β) :
    List (String × β) :=
  match l with
  | [] => [(k, v)]
  | (k', v') :: rest =>
    if k' = k then (k, v) :: rest else (k', v') :: assocSet rest k v

/-- JS `toLowerCase()` on the ASCII identifiers this content uses.  (The
core `String.toLower` is equivalent but does not reduce in the kernel, so
the embedding uses this character-list version.) -/
def jsToLower (s : String) : String := String.mk (s.data.map Char.toLower)

/-- JS `String.prototype.trim()`: strip leading and trailing whitespace. -/
def jsTrim (s : String) : String :=
  String.mk
    (((s.data.dropWhile Char.isWhitespace).reverse.dropWhile
      Char.isWhitespace).reverse)

/-- Recursion for `splitOnSpace`. -/
def splitOnSpaceGo : List Char → List Char → List String
  | [], cur => [String.mk cur.reverse]
  | c :: rest, cur =>
    if c = ' ' then String.mk cur.reverse :: splitOnSpaceGo rest []
    else splitOnSpaceGo rest (c :: cur)

/-- JS `split(' ')`: split on every single space, keeping empty pieces. -/
def splitOnSpace (s : String) : List String := splitOnSpaceGo s.data []

/-- Recursion for `replaceFirstStr`. -/
def replaceFirstGo (pat repl : List Char) : List Char → List Char
  | [] => []
  | c :: rest =>
    if pat.isPrefixOf (c :: rest) then repl ++ (c :: rest).drop pat.length
    else c :: replaceFirstGo pat repl rest

/-- JS `String.prototype.replace(pattern, replacement)` with a string
pattern: replace the first occurrence only. -/
def replaceFirstStr (s pat repl : String) : String :=
  String.mk (replaceFirstGo pat.data repl.data s.data)

/-- The `Room` class (room.js lines 6–151), with the exit table of the
conditional-exit iteration (see the module comment): each exit is an
`ExitRec` rather than a bare destination id. -/
structure Room where
  id : String
  title : String
  description : String
  exits : List (String × ExitRec) := []
  items : List Item := []
  visited : Bool := false
  isDangerous : Bool := false
  dangerMessage : String := ""
deriving DecidableEq, Repr

/-- The `Room` constructor (room.js lines 12–21). -/
def mkRoom (id title description : String) : Room :=
  { id := id, title := title, description := description }

/-- Modelled from the spec: `Room.addExit(direction, destinationId,
locked=false, unlockFlag=null)` of the conditional-exit iteration (spec
section 4.2): registers a directed edge under the lowercased direction.
Call sites in gameData.js pass two arguments (then `locked` is false and
`unlockFlag` null) or all four. -/
def Room.addExit (r : Room) (direction destinationId : String)
    (locked : Bool) (unlockFlag : Option String) : Room :=
  let e : ExitRec := ⟨destinationId, locked, unlockFlag⟩
  { r with exits := assocSet r.exits (jsToLower direction) e }

/-- `Room.addItem(item)` (room.js lines 39–42). -/
def Room.addItem (r : Room) (item : Item) : Room :=
  { r with items := r.items ++ [item] }

/-- `Room.removeItem(itemId)` (room.js lines 49–55): returns the removed
item and the updated room, or `none` when the item is absent. -/
def Room.removeItem (r : Room) (itemId : String) : Option (Item × Room) :=
  match r.items.findIdx? (fun item => item.id = itemId) with
  | some index => match r.items[index]? with
    | some item => some (item, { r with items := r.items.eraseIdx index })
    | none => none
  | none => none

/-- `Room.hasItem(itemId)` (room.js lines 62–64). -/
def Room.hasItem (r : Room) (itemId : String) : Bool :=
  r.items.any (fun item => item.id = itemId)

/-- `Room.getItem(itemId)` (room.js lines 71–73). -/
def Room.getItem (r : Room) (itemId : String) : Option Item :=
  r.items.find? (fun item => item.id = itemId)

/-- `Room.setDangerous(message)` (room.js lines 80–84). -/
def Room.setDangerous (r : Room) (message : String) : Room :=
  { r with isDangerous := true, dangerMessage := message }

/-- Modelled from the spec: `Room.getExit(direction, gameState)` of the
conditional-exit iteration (spec section 4.2: "returns destination id if
the exit exists and (if locked) the required flag is true in `gameState`;
returns null/none otherwise").  The lock test matches the reader in
game.js line 272: `exit.locked && (!this.gameState[exit.unlockCondition])`. -/
def Room.getExit (r : Room) (direction : String) (gs : GState) :
    Option String :=
  match assocGet r.exits (jsToLower direction) with
  | none => none
  | some e =>
    if e.locked && !(gs.getOpt e.unlockCondition) then none
    else some e.destination

/-- `Room.getAvailableDirections()` (room.js lines 99–101). -/
def Room.getAvailableDirections (r : Room) : List String :=
  r.exits.map Prod.fst

/-- `Room.hasExit(direction)` (room.js lines 108–110). -/
def Room.hasExit (r : Room) (direction : String) : Bool :=
  (assocGet r.exits (jsToLower direction)).isSome

/-- `Room.getItemsString()` (room.js lines 128–134). -/
def Room.getItemsString (r : Room) : String :=
  if r.items.length = 0 then ""
  else
    "\nYou see: " ++
      String.intercalate ", "
        (r.items.map (fun item => item.name ++ " [" ++ item.id ++ "]"))

/-- The mutable state of the `Game` class (game.js lines 6–40) plus the
rooms and start pointer of the `AdventureGraph` it holds (`this.graph`),
and the output area as an append-only log.  `currentRoom` is a reference
into the graph's room objects in JS; here it is the room id, resolved
through `Game.getRoom`.  The DOM fields (`outputElement`, `inputElement`),
the command-history UI and `tipsEnabled`-independent presentation are the
excluded collaborators; `tipsEnabled` itself is kept because
`showAvailableActions` branches on it. -/
structure Game where
  rooms : List Room
  startRoomId : Option String
  currentRoomId : String
  health : Int := 100
  maxHealth : Int := 100
  energy : Int := 100
  maxEnergy : Int := 100
  inventory : List Item := []
  maxInventorySize : Nat := 10
  turns : Nat := 0
  isDead : Bool := false
  hasWon : Bool := false
  tipsEnabled : Bool := false
  gameState : GState := {}
  output : List OutLine := []
deriving DecidableEq, Repr

/-- `AdventureGraph.getRoom(id)` as used through `this.graph` in game.js:
rooms are keyed by their `id` field. -/
def Game.getRoom (g : Game) (roomId : String) : Option Room :=
  g.rooms.find? (fun r => r.id = roomId)

/-- A placeholder room: `this.currentRoom` is an object reference in JS
and is always one of the graph's rooms; the placeholder is only the
`getD` default for states whose current room id is not in the graph
(unreachable in the shipped content). -/
def dummyRoom : Room := mkRoom "" "" ""

/-- The room object `this.currentRoom` points at. -/
def Game.currentRoom (g : Game) : Room :=
  (g.getRoom g.currentRoomId).getD dummyRoom

/-- Recursion for `Game.updateRoom`: rewrite the first room carrying the
id (room ids are the unique keys of the graph's Map, so "first" is "the"). -/
def updateFirstRoom : List Room → String → (Room → Room) → List Room
  | [], _, _ => []
  | r :: rest, roomId, f =>
    if r.id = roomId then f r :: rest
    else r :: updateFirstRoom rest roomId f

/-- Replace the room with the given id (JS mutates the shared room object
in place; all references observe the change). -/
def Game.updateRoom (g : Game) (roomId : String) (f : Room → Room) : Game :=
  { g with rooms := updateFirstRoom g.rooms roomId f }

/-- `addOutput(text, className)` (game.js lines 1074–1084), minus the DOM. -/
def Game.addOutput (g : Game) (text : String)
    (className : String) : Game :=
  { g with output := g.output ++ [⟨text, className⟩] }

/-- The "═".repeat(70) separator used by `die` and `winGame`. -/
def sep70 : String := String.mk (List.replicate 70 '═')

/-- `Game.die()` (game.js lines 843–852). -/
def Game.die (g : Game) : Game :=
  let g := { g with isDead := true }
  let g := g.addOutput "" "normal"
  let g := g.addOutput sep70 "normal"
  let g := g.addOutput "💀 GAME OVER 💀" "error"
  let g := g.addOutput "You didn't survive the night shift..." "normal"
  let g := g.addOutput sep70 "normal"
  let g := g.addOutput "" "normal"
  g.addOutput "Refresh the page to try again." "normal"

/-- `Game.modifyHealth(amount)` (game.js lines 711–722): clamp to
`[0, maxHealth]`, then death check (at most once: `!this.isDead`), else a
damage/heal line. -/
def Game.modifyHealth (g : Game) (amount : Int) : Game :=
  let g := { g with health := max 0 (min g.maxHealth (g.health + amount)) }
  if g.health ≤ 0 && !g.isDead then g.die
  else if amount < 0 then
    g.addOutput
      ("💔 You take " ++ toString (-amount) ++ " damage! (" ++
        toString g.health ++ "/" ++ toString g.maxHealth ++ " HP)") "danger"
  else if amount > 0 then
    g.addOutput
      ("💚 You restore " ++ toString amount ++ " health! (" ++
        toString g.health ++ "/" ++ toString g.maxHealth ++ " HP)") "success"
  else g

/-- `Game.modifyEnergy(amount)` (game.js lines 727–734): clamp to
`[0, maxEnergy]`, then an exhaustion warning. -/
def Game.modifyEnergy (g : Game) (amount : Int) : Game :=
  let g := { g with energy := max 0 (min g.maxEnergy (g.energy + amount)) }
  if g.energy ≤ 0 && amount < 0 then
    g.addOutput "⚡ You're exhausted! Rest to recover energy." "warning"
  else g

/-- One firing of the `setInterval` body of `Game.startHealthTick`
(game.js lines 89–144): terminal check, dangerous-room damage with
protection items and the (dead, see `tick` theorems) `subbasement`
override, disorienting-room energy drain with the exhaustion penalty, and
natural energy recovery. -/
def Game.tick (g : Game) : Game :=
  if g.isDead || g.hasWon then g
  else
    let room := g.currentRoom
    let g1 :=
      if room.isDangerous then
        let damage : Int := if room.id = "subbasement" then 10 else 5
        let hasGasMask := g.inventory.any (fun item => item.id = "gasmask")
        let hasHazmat := g.inventory.any (fun item => item.id = "hazmat-suit")
        let isToxicRoom := room.id = "claims" && !g.gameState.powerRestored
        let isBiohazard := room.id = "research-lab"
        let isProtected :=
          (isToxicRoom && hasGasMask) || (isBiohazard && hasHazmat)
        if !isProtected then
          let g' := g.modifyHealth (-damage)
          if g'.health > 0 then
            g'.addOutput ("⚠️ " ++ room.dangerMessage) "danger"
          else g'
        else g
      else g
    let g2 :=
      if room.id = "archive" || room.id = "tunnel" then
        let g' := g1.modifyEnergy (-2)
        let g' :=
          if g'.energy > 0 && g'.energy ≤ 20 then
            g'.addOutput "🌀 The disorienting space drains your energy..."
              "danger"
          else g'
        if g'.energy ≤ 0 then
          let g' := g'.addOutput "You collapse from exhaustion!" "error"
          g'.modifyHealth (-15)
        else g'
      else g1
    if g2.energy < g2.maxEnergy then
      { g2 with energy := min g2.maxEnergy (g2.energy + 1) }
    else g2

/-- `Game.getDynamicDescription(room)` (game.js lines 207–255). -/
def Game.getDynamicDescription (g : Game) (room : Room) : String :=
  let description := room.description
  let description :=
    if room.id = "claims" then
      if g.gameState.powerRestored then
        "The Claims Department is now well-ventilated. The toxic fumes have cleared thanks to " ++
        "the restored ventilation system. Papers are still scattered everywhere from the earlier chaos. " ++
        "The basement door stands open, revealing a stairway leading DOWN."
      else if g.gameState.basementUnlocked then
        replaceFirstStr room.description
          "A heavy metal door marked 'BASEMENT - ELECTRICAL' is locked tight."
          "The basement door stands open, revealing a dark stairway leading DOWN."
      else description
    else description
  let description :=
    if room.id = "lobby" && g.gameState.powerRestored then
      if g.gameState.elevatorAccess then
        "The lobby is now illuminated by overhead lights! The shadows have retreated. " ++
        "Everything looks much less ominous now. The elevator doors stand open - ready to take you UP to the roof."
      else
        "The lobby is now illuminated by overhead lights! The shadows have retreated. " ++
        "Everything looks much less ominous now. The elevator hums with power, but the doors remain closed. " ++
        "A card reader next to the elevator blinks red - it needs an access card."
    else description
  let description :=
    if room.id = "datacenter" && g.gameState.fireExtinguished then
      "The Data Center is now safe. The fire suppressant foam covers the floor and equipment. " ++
      "The servers are damaged but the fire is out. You can breathe easier now."
    else description
  let description :=
    if room.id = "mechanical" && g.gameState.mechanicalFixed then
      "The Mechanical Room is now safe. The steam valve is shut off and the pressure has normalized. " ++
      "The machinery hums quietly. You fixed it!"
    else description
  let description :=
    if room.id = "storage" && g.gameState.storageOpened then
      "The storage room is slightly less cluttered now. The locked cabinet stands open, " ++
      "its contents revealed. You found some useful gear."
    else description
  description

/-- The `{text, useHTML}` result of `Game.getExitsString` (game.js). -/
structure ExitsInfo where
  text : String
  useHTML : Bool
deriving DecidableEq, Repr

/-- `Game.getExitsString(room)` (game.js lines 260–292): lists exits,
hiding the secret storage tunnel until revealed and striking through
locked exits. -/
def Game.getExitsString (g : Game) (room : Room) : ExitsInfo :=
  let shown := room.exits.filter (fun de =>
    !(de.1 = "down" && room.id = "storage" && !g.gameState.tunnelRevealed))
  let exitStrings := shown.map (fun de =>
    let isLocked := de.2.locked && !(g.gameState.getOpt de.2.unlockCondition)
    if isLocked then
      "<span style=\"text-decoration: line-through; opacity: 0.5;\">" ++
        de.1 ++ "</span> 🔒"
    else de.1)
  let hasLockedExits := shown.any (fun de =>
    de.2.locked && !(g.gameState.getOpt de.2.unlockCondition))
  if exitStrings.length = 0 then ⟨"No obvious exits.", false⟩
  else ⟨"Exits: " ++ String.intercalate ", " exitStrings, hasLockedExits⟩

/-- `Game.showAvailableActions(room)` (game.js lines 297–379): purely
informational hint lines, all gated behind `tipsEnabled`. -/
def Game.showAvailableActions (g : Game) (room : Room) : Game :=
  if !g.tipsEnabled then g
  else
    let has := fun id => g.inventory.any (fun item => item.id = id)
    let actions : List String :=
      (if room.id = "claims" && has "basement-key" && !g.gameState.basementUnlocked then
        ["💡 You can USE the basement-key here to unlock the basement door"] else []) ++
      (if room.id = "claims" && room.isDangerous && has "gasmask" && !g.gameState.powerRestored then
        ["🎭 Your gas mask will protect you from the toxic air here"] else []) ++
      (if room.id = "basement" && has "fuse" && !g.gameState.powerRestored then
        ["💡 You can USE the fuse here to restore power to the building"] else []) ++
      (if room.id = "datacenter" && has "extinguisher" && room.isDangerous then
        ["🧯 You can USE the fire extinguisher here to put out the fire"] else []) ++
      (if room.id = "mechanical" && has "wrench" && room.isDangerous then
        ["🔧 You can USE the wrench here to fix the steam valve"] else []) ++
      (if room.id = "storage" && has "crowbar" && !g.gameState.storageOpened then
        ["💪 You can USE the crowbar here to pry open the locked cabinet"] else []) ++
      (if room.id = "executive-hall" && has "access-card" && !g.gameState.executiveUnlocked then
        ["🔓 You can USE the access-card here to unlock the boardroom"] else []) ++
      (if room.id = "lab-hall" && has "lab-key" && !g.gameState.labUnlocked then
        ["🔬 You can USE the lab-key here to access the research lab"] else []) ++
      (if room.id = "research-lab" && room.isDangerous && has "hazmat-suit" then
        ["🛡️ Your hazmat suit will protect you from the biohazard"] else []) ++
      (if room.id = "archive" || room.id = "tunnel" then
        ["⚠️ This area drains your energy faster. Don't stay too long!"] else []) ++
      (if room.id = "subbasement" then
        ["☠️ EXTREME DANGER! This area deals massive damage. Get what you need and leave!"] else []) ++
      (if room.id = "roof" then
        ["🪜 Type ESCAPE to climb down the fire escape and complete your mission!"] else [])
    if actions.length > 0 then
      let g := g.addOutput "" "normal"
      actions.foldl (fun acc action => acc.addOutput action "success") g
    else g

/-- `Game.toggleTips()` (game.js lines 384–391). -/
def Game.toggleTips (g : Game) : Game :=
  let g := { g with tipsEnabled := !g.tipsEnabled }
  if g.tipsEnabled then
    g.addOutput "✅ Tips enabled! You will now see helpful hints about using items." "success"
  else
    g.addOutput "🔇 Tips disabled. You're on your own!" "normal"

/-- `Game.displayRoom(room)` (game.js lines 171–202): turn counter, visit
marking, dynamic description, item and exit listing, tips, and the
movement energy cost (skipped on the very first turn). -/
def Game.displayRoom (g : Game) (roomId : String) : Game :=
  match g.getRoom roomId with
  | none => g
  | some room =>
    let g := { g with turns := g.turns + 1 }
    let g := g.updateRoom roomId (fun r => { r with visited := true })
    let g := g.addOutput "" "normal"
    let g := g.addOutput ("📍 " ++ room.title) "room-title"
    let g := g.addOutput (g.getDynamicDescription room) "room-description"
    let g :=
      if room.items.length > 0 then
        g.addOutput room.getItemsString "item-list"
      else g
    let g := g.addOutput "" "normal"
    let exitsInfo := g.getExitsString room
    let g := g.addOutput exitsInfo.text "exits"
    let g := g.showAvailableActions room
    if g.turns > 1 then g.modifyEnergy (-2) else g

/-- The flag-specific locked-exit hints of `Game.movePlayer`
(game.js lines 504–510): `messages[exit.unlockCondition] || "This exit is
locked."`. -/
def lockedExitMessage : Option String → String
  | some "basementUnlocked" => "The basement door is locked. You need a key."
  | some "powerRestored" => "The elevator has no power. You need to restore electricity first."
  | some "executiveUnlocked" => "The boardroom door is locked. You need an executive access card."
  | some "labUnlocked" => "The research lab is sealed. You need a lab key."
  | _ => "This exit is locked."

/-- `Game.movePlayer(direction)` (game.js lines 498–526). -/
def Game.movePlayer (g : Game) (direction : String) : Game :=
  match g.currentRoom.getExit direction g.gameState with
  | none =>
    match assocGet g.currentRoom.exits (jsToLower direction) with
    | some e =>
      if e.locked then
        g.addOutput (lockedExitMessage e.unlockCondition) "error"
      else
        g.addOutput ("You can't go " ++ direction ++ " from here.") "error"
    | none =>
      g.addOutput ("You can't go " ++ direction ++ " from here.") "error"
  | some destinationId =>
    match g.getRoom destinationId with
    | some _ =>
      let g := g.addOutput ("You head " ++ direction ++ "...") "normal"
      let g := { g with currentRoomId := destinationId }
      g.displayRoom destinationId
    | none =>
      g.addOutput ("You can't go " ++ direction ++ " from here.") "error"

/-- `Game.winGame()` (game.js lines 542–559). -/
def Game.winGame (g : Game) : Game :=
  let g := { g with hasWon := true }
  let g := g.addOutput "" "normal"
  let g := g.addOutput sep70 "success"
  let g := g.addOutput "🎉 YOU ESCAPED! 🎉" "success"
  let g := g.addOutput "" "normal"
  let g := g.addOutput "You climb down the fire escape and your feet touch the pavement." "normal"
  let g := g.addOutput "The cold night air fills your lungs. You made it out alive!" "normal"
  let g := g.addOutput "The nightmare is over..." "normal"
  let g := g.addOutput "" "normal"
  let g := g.addOutput sep70 "success"
  let g := g.addOutput "" "normal"
  let g := g.addOutput
    ("Final Stats: " ++ toString g.health ++ "/" ++ toString g.maxHealth ++
      " HP | " ++ toString g.turns ++ " turns | " ++
      toString g.inventory.length ++ " items") "normal"
  let g := g.addOutput "" "normal"
  let g := g.addOutput "🏆 CONGRATULATIONS! 🏆" "success"
  let g := g.addOutput "Refresh the page to play again." "normal"
  g.addOutput "" "normal"

/-- `Game.attemptEscape()` (game.js lines 531–537). -/
def Game.attemptEscape (g : Game) : Game :=
  if g.currentRoom.id = "roof" then g.winGame
  else g.addOutput "There's no escape route here." "error"

/-- `Game.takeItem(itemId)` (game.js lines 564–592). -/
def Game.takeItem (g : Game) (itemId : String) : Game :=
  if itemId = "" then g.addOutput "Take what?" "error"
  else if g.inventory.length ≥ g.maxInventorySize then
    g.addOutput "Your inventory is full!" "error"
  else if g.currentRoom.id = "sub-basement" && itemId = "elevator-key" &&
      g.gameState.powerRestored then
    let g := g.addOutput "⚡ The elevator access card is submerged in electrified water! You can see it clearly," "error"
    let g := g.addOutput "but touching the water would be instantly fatal. You need to remove the fuse to de-power" "error"
    g.addOutput "the building first. Type 'REMOVE FUSE' in the server room to shut off power." "error"
  else
    match g.currentRoom.removeItem itemId with
    | some (item, room') =>
      let g := g.updateRoom g.currentRoomId (fun _ => room')
      let g := { g with inventory := g.inventory ++ [item] }
      let g := g.addOutput ("✅ You take the " ++ item.name ++ ".") "success"
      g.modifyEnergy (-1)
    | none =>
      g.addOutput ("There is no \"" ++ itemId ++ "\" here.") "error"

/-- `Game.dropItem(itemId)` (game.js lines 597–612). -/
def Game.dropItem (g : Game) (itemId : String) : Game :=
  if itemId = "" then g.addOutput "Drop what?" "error"
  else
    match g.inventory.findIdx? (fun item => item.id = itemId) with
    | some index =>
      match g.inventory[index]? with
      | some item =>
        let g := { g with inventory := g.inventory.eraseIdx index }
        let g := g.updateRoom g.currentRoomId (fun r => r.addItem item)
        g.addOutput ("You drop the " ++ item.name ++ ".") "normal"
      | none => g
    | none =>
      g.addOutput ("You don't have \"" ++ itemId ++ "\".") "error"

/-- JS `inventory.splice(inventory.findIndex(pred), 1)` as the effects use
it: removes the first matching item; when the item is absent, `findIndex`
yields `-1` and `splice(-1, 1)` removes the last element. -/
def spliceById (inventory : List Item) (itemId : String) : List Item :=
  match inventory.findIdx? (fun item => item.id = itemId) with
  | some index => inventory.eraseIdx index
  | none => inventory.dropLast

/-- gameData.js lines 15–20. -/
def flashlight : Item :=
  ⟨"flashlight", "Flashlight", "A heavy-duty flashlight. Still has some battery left.", "tool", false, none⟩

/-- gameData.js lines 22–27. -/
def keycard : Item :=
  ⟨"keycard", "Security Keycard", "Your security keycard. It should open most doors in the building.", "key", false, none⟩

/-- gameData.js lines 29–39. -/
def firstaid : Item :=
  (⟨"medkit", "First Aid Kit", "A medical kit with bandages and supplies.", "consumable", false, none⟩ : Item).setUsable .medkit

/-- gameData.js lines 41–51. -/
def energydrink : Item :=
  (⟨"energy", "Energy Drink", "A can of high-caffeine energy drink.", "consumable", false, none⟩ : Item).setUsable .energyDrink

/-- gameData.js lines 53–68. -/
def basement_key : Item :=
  (⟨"basement-key", "Rusty Basement Key", "An old key labeled \"ELECTRICAL\". Might fit the basement door.", "key", false, none⟩ : Item).setUsable .basementKey

/-- gameData.js lines 70–106: the shipped fuse, installed at the basement
breaker panel. -/
def fuse : Item :=
  (⟨"fuse", "Replacement Fuse", "A heavy electrical fuse. This could restore power.", "tool", false, none⟩ : Item).setUsable .fuseBasement

/-- gameData.js lines 108–113. -/
def gasmask : Item :=
  ⟨"gasmask", "Gas Mask", "A protective gas mask. This could protect you from toxic environments.", "tool", false, none⟩

/-- gameData.js lines 115–125. -/
def painkiller : Item :=
  (⟨"painkillers", "Pain Killers", "A bottle of strong painkillers. For emergencies.", "consumable", false, none⟩ : Item).setUsable .painkillers

/-- gameData.js lines 127–137. -/
def coffee : Item :=
  (⟨"coffee", "Cold Coffee", "A half-full cup of cold coffee from your desk. Better than nothing.", "consumable", false, none⟩ : Item).setUsable .coffee

/-- gameData.js lines 139–144. -/
def batteries : Item :=
  ⟨"batteries", "Fresh Batteries", "A pack of AA batteries. Your flashlight could use these.", "tool", false, none⟩

/-- gameData.js lines 146–164. -/
def extinguisher : Item :=
  (⟨"extinguisher", "Fire Extinguisher", "A red fire extinguisher. Might be useful against fire... or something else.", "tool", false, none⟩ : Item).setUsable .extinguisher

/-- gameData.js lines 166–180. -/
def accesscard : Item :=
  (⟨"access-card", "Executive Access Card", "A high-level access card. Opens restricted areas.", "key", false, none⟩ : Item).setUsable .accessCard

/-- gameData.js lines 182–187. -/
def hazmat : Item :=
  ⟨"hazmat-suit", "Hazmat Suit", "A full-body hazmat suit. Maximum protection from hazardous environments.", "tool", false, none⟩

/-- gameData.js lines 189–207. -/
def wrench : Item :=
  (⟨"wrench", "Pipe Wrench", "A heavy pipe wrench. Could be used to fix pipes... or as a weapon.", "tool", false, none⟩ : Item).setUsable .wrench

/-- gameData.js lines 209–220. -/
def sedative : Item :=
  (⟨"sedative", "Sedative Injection", "A medical sedative. Calms you down but drains energy.", "consumable", false, none⟩ : Item).setUsable .sedative

/-- gameData.js lines 222–233. -/
def adrenaline : Item :=
  (⟨"adrenaline", "Adrenaline Shot", "Emergency adrenaline. Massive energy boost but damages health.", "consumable", false, none⟩ : Item).setUsable .adrenaline

/-- gameData.js lines 235–249. -/
def labkey : Item :=
  (⟨"lab-key", "Research Lab Key", "A keycard for the research lab. What were they researching here?", "key", false, none⟩ : Item).setUsable .labKey

/-- gameData.js lines 251–256. -/
def roofkey : Item :=
  ⟨"roof-key", "Roof Access Key", "A key for roof access. Your ticket to freedom... maybe.", "key", false, none⟩

/-- gameData.js lines 258–263 (the JS constant is named `document`,
shadowing the DOM global). -/
def documentItem : Item :=
  ⟨"documents", "Classified Documents", "Heavily redacted documents about \"Project Midnight\". What is this?", "lore", false, none⟩

/-- gameData.js lines 265–283.  Its effect adds the very `hazmat` and
`adrenaline` objects (already placed in the research lab and the
boardroom) to the storage room. -/
def crowbar : Item :=
  (⟨"crowbar", "Crowbar", "A sturdy crowbar. Good for prying things open.", "tool", false, none⟩ : Item).setUsable .crowbar

/-- The replacement fuse created inside `Game.removeFuse`
(game.js lines 783–832): same id, new description, and an effect that
installs at the server room panel. -/
def fuseV2 : Item :=
  (⟨"fuse", "Replacement Fuse", "A heavy electrical fuse. This could restore power... but it might also electrify flooded areas.", "tool", false, none⟩ : Item).setUsable .fuseServers

/-- The effect executor: each branch is the body of the corresponding
`setUsable` closure (see `EffectTag` for the source locations). -/
def Game.applyEffect (g : Game) (tag : EffectTag) : Game :=
  match tag with
  | .medkit =>
    let g := g.modifyHealth 30
    let g := { g with inventory := spliceById g.inventory "medkit" }
    g.addOutput "You use the first aid kit." "success"
  | .energyDrink =>
    let g := g.modifyEnergy 40
    let g := { g with inventory := spliceById g.inventory "energy" }
    g.addOutput "You chug the energy drink. You feel more alert!" "success"
  | .basementKey =>
    if g.currentRoom.id = "claims" && !g.gameState.basementUnlocked then
      let g := { g with gameState := { g.gameState with basementUnlocked := true } }
      let g := g.addOutput "✅ You unlock the basement door with the rusty key. You hear it creak open below." "success"
      g.addOutput "A dark stairway leads DOWN to the basement." "normal"
    else if g.gameState.basementUnlocked then
      g.addOutput "The basement is already unlocked." "normal"
    else
      g.addOutput "There's nothing to unlock here. Try using this at the basement door in Claims." "error"
  | .fuseBasement =>
    if g.currentRoom.id = "basement" && !g.gameState.powerRestored then
      let g := { g with gameState := { g.gameState with powerRestored := true } }
      let g := g.addOutput "⚡ You install the fuse into the breaker panel..." "success"
      let g := g.addOutput "" "normal"
      let g := g.addOutput "CLUNK! The breakers flip on. Lights flicker to life throughout the building!" "success"
      let g := g.addOutput "The contamination vents in the Claims Department activate and clear the air." "success"
      let g := g.addOutput "The elevator to the roof should now be operational from the lobby!" "success"
      let g := g.addOutput "" "normal"
      let g := { g with inventory := spliceById g.inventory "fuse" }
      let g := g.updateRoom "claims" (fun r =>
        { r with isDangerous := false, dangerMessage := "" })
      g.updateRoom g.currentRoomId (fun r =>
        { r with isDangerous := false, dangerMessage := "" })
    else if g.gameState.powerRestored then
      g.addOutput "The power is already restored." "normal"
    else
      g.addOutput "You need to be at the electrical panel in the basement to use this." "error"
  | .fuseServers =>
    if g.currentRoom.id = "servers" && !g.gameState.powerRestored then
      let g := { g with gameState :=
        { g.gameState with powerRestored := true, fuseInstalled := true } }
      let g := g.addOutput "⚡ You install the fuse into the server room breaker panel..." "success"
      let g := g.addOutput "" "normal"
      let g := g.addOutput "CLUNK! The breakers flip on. Lights flicker to life throughout the building!" "success"
      let g := g.addOutput "The contamination vents in the Claims Department activate and clear the air." "success"
      let g := g.addOutput "The cafeteria refrigeration system hums to life - the air clears as ventilation starts!" "success"
      let g := g.addOutput "Power is restored, but the lobby elevator still won't budge - it needs an access card." "normal"
      let g := g.addOutput "" "normal"
      let g := g.addOutput "⚠️  WARNING: You hear a crackling sound from deep below... the sub-basement water is now ELECTRIFIED!" "error"
      let g := g.addOutput "💡 Tip: You can REMOVE the fuse from the panel if you need to de-power the building." "exits"
      let g := g.addOutput "" "normal"
      let g := { g with inventory := spliceById g.inventory "fuse" }
      let g := g.updateRoom "claims" (fun r =>
        { r with isDangerous := false, dangerMessage := "" })
      let g := g.updateRoom "cafeteria" (fun r =>
        { r with isDangerous := false, dangerMessage := "" })
      g.updateRoom "sub-basement" (fun r =>
        { r with isDangerous := true, dangerMessage := "⚡ The water is ELECTRIFIED! You're being shocked!" })
    else if g.gameState.powerRestored then
      g.addOutput "The power is already restored." "normal"
    else
      g.addOutput "You need to be at the server room breaker panel to use this." "error"
  | .painkillers =>
    let g := g.modifyHealth 20
    let g := { g with inventory := spliceById g.inventory "painkillers" }
    g.addOutput "You swallow some painkillers. The pain subsides a bit." "success"
  | .coffee =>
    let g := g.modifyEnergy 20
    let g := { g with inventory := spliceById g.inventory "coffee" }
    g.addOutput "You gulp down the cold coffee. Disgusting, but effective." "success"
  | .extinguisher =>
    if g.currentRoom.id = "datacenter" && g.currentRoom.isDangerous then
      let g := g.addOutput "💨 You spray the fire extinguisher at the flames!" "success"
      let g := g.addOutput "The fire suppressant fills the room. The server fire is out!" "success"
      let g := g.updateRoom g.currentRoomId (fun r =>
        { r with isDangerous := false, dangerMessage := "" })
      let g := { g with gameState := { g.gameState with fireExtinguished := true } }
      { g with inventory := spliceById g.inventory "extinguisher" }
    else
      g.addOutput "There's nothing to extinguish here." "error"
  | .accessCard =>
    if g.currentRoom.id = "executive-hall" && !g.gameState.executiveUnlocked then
      let g := { g with gameState := { g.gameState with executiveUnlocked := true } }
      g.addOutput "🔓 The executive access card unlocks the boardroom. The heavy door slides open." "success"
    else if g.gameState.executiveUnlocked then
      g.addOutput "The boardroom is already unlocked." "normal"
    else
      g.addOutput "There's nothing to unlock here. Try using this at the executive hallway." "error"
  | .wrench =>
    if g.currentRoom.id = "mechanical" && g.currentRoom.isDangerous then
      let g := g.addOutput "🔧 You use the wrench to shut off the damaged steam valve!" "success"
      let g := g.addOutput "The hissing stops. The mechanical room is now safe." "success"
      let g := g.updateRoom g.currentRoomId (fun r =>
        { r with isDangerous := false, dangerMessage := "" })
      let g := { g with gameState := { g.gameState with mechanicalFixed := true } }
      { g with inventory := spliceById g.inventory "wrench" }
    else
      g.addOutput "There's nothing to fix here." "error"
  | .sedative =>
    let g := g.modifyHealth 15
    let g := g.modifyEnergy (-30)
    let g := { g with inventory := spliceById g.inventory "sedative" }
    g.addOutput "You inject the sedative. Your pain eases but you feel drowsy." "success"
  | .adrenaline =>
    let g := g.modifyEnergy 60
    let g := g.modifyHealth (-10)
    let g := { g with inventory := spliceById g.inventory "adrenaline" }
    g.addOutput "You inject the adrenaline! Your heart races. You feel unstoppable!" "success"
  | .labKey =>
    if g.currentRoom.id = "lab-hall" && !g.gameState.labUnlocked then
      let g := { g with gameState := { g.gameState with labUnlocked := true } }
      g.addOutput "🔬 The lab key opens the research lab. Warning lights flash inside." "success"
    else if g.gameState.labUnlocked then
      g.addOutput "The research lab is already open." "normal"
    else
      g.addOutput "There's nothing to unlock here. Try this at the lab hallway." "error"
  | .crowbar =>
    if g.currentRoom.id = "storage" && !g.gameState.storageOpened then
      let g := { g with gameState := { g.gameState with storageOpened := true } }
      let g := g.addOutput "💪 You pry open the locked storage cabinet!" "success"
      let g := g.addOutput "Inside you find... something useful." "success"
      g.updateRoom "storage" (fun r => (r.addItem hazmat).addItem adrenaline)
    else
      g.addOutput "There's nothing to pry open here." "error"

/-- `Game.useItem(itemId)` (game.js lines 617–638). -/
def Game.useItem (g : Game) (itemId : String) : Game :=
  if itemId = "" then g.addOutput "Use what?" "error"
  else
    match g.inventory.find? (fun item => item.id = itemId) with
    | none => g.addOutput ("You don't have \"" ++ itemId ++ "\".") "error"
    | some item =>
      if !item.canUse then
        g.addOutput ("You can't use the " ++ item.name ++ " right now.") "error"
      else
        match item.useEffect with
        | some tag => g.applyEffect tag
        | none => g

/-- `Game.examineItem(itemId)` (game.js lines 643–688), including the
secret-tunnel reveal special case (dead with the shipped content, since
nothing in game.js/gameData.js sets `cabinetMoved`). -/
def Game.examineItem (g : Game) (itemId : String) : Game :=
  if itemId = "" then g.addOutput "Examine what?" "error"
  else if (itemId = "cabinet" || itemId = "wall") &&
      g.currentRoom.id = "storage" && g.gameState.cabinetMoved &&
      !g.gameState.tunnelRevealed then
    let g := { g with gameState := { g.gameState with tunnelRevealed := true } }
    let g := g.addOutput "🔍 You examine the back of the storage cabinet more closely..." "normal"
    let g := g.addOutput "" "normal"
    let g := g.addOutput "The loose paneling isn't just damaged - it's a false wall!" "success"
    let g := g.addOutput "You push on it and it swings inward, revealing a hidden maintenance hatch." "success"
    let g := g.addOutput "A narrow passage leads DOWN into what appears to be a secret maintenance tunnel system." "success"
    let g := g.addOutput "" "normal"
    let g := g.addOutput "🔓 A new path has been revealed! (Type 'look' to see updated exits)" "exits"
    g.updateRoom "storage" (fun r =>
      { r with description :=
          "A cluttered storage room filled with old equipment and supplies. Metal shelving units " ++
          "line the walls. The pried-open cabinet now reveals a hidden maintenance hatch in the wall behind it, " ++
          "leading DOWN to a secret tunnel system." })
  else
    let item :=
      match g.inventory.find? (fun item => item.id = itemId) with
      | some item => some item
      | none => g.currentRoom.getItem itemId
    match item with
    | some item =>
      let g := g.addOutput ("🔍 " ++ item.name) "item-name"
      g.addOutput item.description "normal"
    | none =>
      g.addOutput ("You don't see \"" ++ itemId ++ "\" anywhere.") "error"

/-- `Game.showInventory()` (game.js lines 693–706). -/
def Game.showInventory (g : Game) : Game :=
  let g := g.addOutput "" "normal"
  let g := g.addOutput "🎒 INVENTORY" "room-title"
  let g :=
    if g.inventory.length = 0 then
      g.addOutput "Your inventory is empty." "normal"
    else
      g.inventory.foldl (fun acc item =>
        acc.addOutput ("  • " ++ item.name ++ " [" ++ item.id ++ "] - " ++ item.type)
          "item-list") g
  let g := g.addOutput
    ("\nCarrying: " ++ toString g.inventory.length ++ "/" ++
      toString g.maxInventorySize) "normal"
  g.addOutput "" "normal"

/-- `Game.removeFuse()` (game.js lines 739–838): only in the server room
and only when `fuseInstalled`; inverts the server-room install and hands a
fresh fuse (with the server-room effect) back to the player. -/
def Game.removeFuse (g : Game) : Game :=
  if g.currentRoom.id ≠ "servers" then
    g.addOutput "There's no fuse to remove here. The breaker panel is in the server room." "error"
  else if !g.gameState.fuseInstalled then
    g.addOutput "There's no fuse installed in the breaker panel." "normal"
  else
    let gs := { g.gameState with powerRestored := false, fuseInstalled := false, elevatorAccess := false }
    let g := { g with gameState := gs }
    let g := g.addOutput "🔧 You carefully remove the fuse from the breaker panel..." "normal"
    let g := g.addOutput "" "normal"
    let g := g.addOutput "CLUNK! The building goes dark again. Emergency lights flicker on." "normal"
    let g := g.addOutput "⚠️  The claims area toxic fumes return as the vents shut down!" "error"
    let g := g.addOutput "⚠️  The cafeteria refrigeration shuts down - mold spores fill the air again!" "error"
    let g := g.addOutput "✅ The sub-basement water is no longer electrified - you can safely retrieve items now!" "success"
    let g := g.addOutput "" "normal"
    let g := g.updateRoom "claims" (fun r =>
      r.setDangerous "💀 The toxic fumes are hurting you!")
    let g := g.updateRoom "cafeteria" (fun r =>
      r.setDangerous "🦠 Toxic mold spores from spoiled food fill the air! You're choking!")
    let g := g.updateRoom "sub-basement" (fun r =>
      { r with isDangerous := false, dangerMessage := "" })
    let g := { g with inventory := g.inventory ++ [fuseV2] }
    g.addOutput "You put the fuse back in your pocket." "normal"

/-- `Game.displayHelp()` (game.js lines 1036–1050). -/
def Game.displayHelp (g : Game) : Game :=
  let g := g.addOutput "" "normal"
  let g := g.addOutput "📋 COMMANDS" "room-title"
  let g := g.addOutput "" "normal"
  let g := g.addOutput "Movement: north (n), south (s), east (e), west (w), up (u), down (d)" "normal"
  let g := g.addOutput "Items: take [item], drop [item], use [item], examine [item]" "normal"
  let g := g.addOutput "Info: inventory (i), look (l), stats, exits, map (m), help (h)" "normal"
  let g := g.addOutput "Settings: tips (toggle helpful hints)" "normal"
  let g := g.addOutput "Special: escape (when on roof), remove fuse (in server room)" "normal"
  let g := g.addOutput "" "normal"
  let g := g.addOutput "💡 Tip: Power management is key - you can install and remove the fuse as needed." "exits"
  let g := g.addOutput "💡 Tip: Some areas become dangerous when powered, others when unpowered." "exits"
  let g := g.addOutput "💡 Tip: Examine items to learn more about them." "exits"
  g.addOutput "" "normal"

/-- `Game.displayDetailedStats()` (game.js lines 1055–1069). -/
def Game.displayDetailedStats (g : Game) : Game :=
  let yesNo := fun (b : Bool) => if b then "✅ Yes" else "❌ No"
  let g := g.addOutput "" "normal"
  let g := g.addOutput "📊 CHARACTER STATUS" "room-title"
  let g := g.addOutput ("Health: " ++ toString g.health ++ "/" ++ toString g.maxHealth) "normal"
  let g := g.addOutput ("Energy: " ++ toString g.energy ++ "/" ++ toString g.maxEnergy) "normal"
  let g := g.addOutput ("Turns Taken: " ++ toString g.turns) "normal"
  let g := g.addOutput ("Current Location: " ++ g.currentRoom.title) "normal"
  let g := g.addOutput "" "normal"
  let g := g.addOutput "🔧 PROGRESS" "room-title"
  let g := g.addOutput ("Basement Unlocked: " ++ yesNo g.gameState.basementUnlocked) "normal"
  let g := g.addOutput ("Power Restored: " ++ yesNo g.gameState.powerRestored) "normal"
  let g := g.addOutput ("Fire Extinguished: " ++ yesNo g.gameState.fireExtinguished) "normal"
  let g := g.addOutput ("Executive Access: " ++ yesNo g.gameState.executiveUnlocked) "normal"
  g.addOutput "" "normal"

/-- `Game.displayMap()` (game.js lines 878–973): the canvas drawing and
room-position layout are presentation; only the `addOutput` lines are
simulation-visible. -/
def Game.displayMap (g : Game) : Game :=
  let g := g.addOutput "" "normal"
  let g := g.addOutput "🗺️  MAP - Visited Locations" "room-title"
  let g := g.addOutput "" "normal"
  let g := g.addOutput "" "normal"
  let g := g.addOutput "Legend: 🟩 Current Location | 🟨 Start | ⬛ Visited" "normal"
  let g := g.addOutput "Tip: Only rooms you've visited are shown on the map" "exits"
  g.addOutput "" "normal"

/-- `Game.displayWelcome()` (game.js lines 149–166). -/
def Game.displayWelcome (g : Game) : Game :=
  let g := g.addOutput sep70 "normal"
  let g := g.addOutput "🌑 PROGRESSIVE INSURANCE: NIGHT SHIFT 🌑" "room-title"
  let g := g.addOutput "A Dark Survival Text Adventure" "normal"
  let g := g.addOutput sep70 "normal"
  let g := g.addOutput "" "normal"
  let g := g.addOutput
    ("It's 2 AM. The Progressive headquarters is eerily quiet. You're a night shift " ++
     "security guard making your rounds when the power suddenly cuts out. Strange noises " ++
     "echo through the halls. You need to survive the night and escape...") "normal"
  let g := g.addOutput "" "normal"
  let g := g.addOutput "💡 Commands: take [item], drop [item], inventory, use [item], examine [item]" "exits"
  let g := g.addOutput "📊 Watch your health and energy bars at the top!" "exits"
  let g := g.addOutput "💡 Type 'help' for full command list" "exits"
  g.addOutput "" "normal"

/-- The single-letter movement abbreviations of `Game.processCommand`
(game.js line 405): `directionMap[action] || action`. -/
def directionAlias (action : String) : String :=
  match action with
  | "n" => "north"
  | "s" => "south"
  | "e" => "east"
  | "w" => "west"
  | "u" => "up"
  | "d" => "down"
  | _ => action

/-- `Game.processCommand(command)` (game.js lines 396–493): echo the
command, then dispatch on the first word. -/
def Game.processCommand (g : Game) (command : String) : Game :=
  let cmd := jsTrim (jsToLower command)
  let parts := splitOnSpace cmd
  let action := parts.headD ""
  let target := String.intercalate " " parts.tail
  let g := g.addOutput ("> " ++ command) "command"
  let direction := directionAlias action
  if ["north", "south", "east", "west", "up", "down"].contains direction then
    g.movePlayer direction
  else if action = "take" || action = "get" || action = "pickup" then
    g.takeItem target
  else if action = "drop" then g.dropItem target
  else if action = "use" then g.useItem target
  else if action = "examine" || action = "inspect" || action = "x" then
    g.examineItem target
  else if action = "inventory" || action = "inv" || action = "i" then
    g.showInventory
  else if action = "escape" || action = "climb" || cmd = "climb down" then
    g.attemptEscape
  else if action = "remove" && target = "fuse" then g.removeFuse
  else if action = "look" || action = "l" then
    g.displayRoom g.currentRoomId
  else if action = "help" || action = "h" || action = "?" then g.displayHelp
  else if action = "stats" || action = "status" then g.displayDetailedStats
  else if action = "exits" then
    g.addOutput (g.getExitsString g.currentRoom).text "exits"
  else if action = "map" || action = "m" then g.displayMap
  else if action = "tips" then g.toggleTips
  else if action = "debug" then
    g.addOutput "Opening debug view in a new window..." "normal"
  else
    g.addOutput
      ("I don't understand \"" ++ command ++ "\". Type 'help' for commands.")
      "error"

/-- The Enter-key handler installed by `Game.setupEventListeners`
(game.js lines 58–66): the input value is trimmed, and a command is
processed only when it is non-empty and the game is not in a terminal
state.  The command-history bookkeeping is input-field UI. -/
def Game.handleKeyEnter (g : Game) (rawInput : String) : Game :=
  let command := jsTrim rawInput
  if command ≠ "" && !g.isDead && !g.hasWon then g.processCommand command
  else g

/-- gameData.js lines 288–297: Security Office (start), with its items. -/
def security : Room :=
  (((mkRoom "security" "Security Office"
    ("Your small security office. Monitors flicker with static. Papers are scattered " ++
     "everywhere. The emergency lights cast an eerie red glow. This is the only place " ++
     "that feels safe right now.")).addItem flashlight).addItem keycard).addItem coffee

/-- gameData.js lines 300–308. -/
def lobby : Room :=
  (mkRoom "lobby" "Reception Lobby"
    ("The once-bright lobby is now pitch black except for emergency exit signs. " ++
     "Shadows dance on the walls. You hear distant sounds - footsteps? Something else? " ++
     "The main entrance is locked from the outside. You'll need another way out. " ++
     "There's an elevator, but it appears to be without power.")).addItem energydrink

/-- gameData.js lines 311–319. -/
def claims : Room :=
  ((mkRoom "claims" "Claims Department - Contaminated"
    ("A chemical smell fills this room. Papers float through the air from a broken AC unit. " ++
     "Your eyes water and your throat burns. Something is VERY wrong here. Don't stay long! " ++
     "A heavy metal door marked 'BASEMENT - ELECTRICAL' is locked tight.")).setDangerous
    "💀 The toxic fumes are hurting you!").addItem firstaid

/-- gameData.js lines 322–329. -/
def servers : Room :=
  ((mkRoom "servers" "Server Room"
    ("Rows of dark server racks hum quietly on backup power. The blue indicator lights " ++
     "provide minimal illumination. It's cold in here - very cold. You can see your breath.")).addItem
    basement_key).addItem batteries

/-- gameData.js lines 332–340. -/
def datacenter : Room :=
  ((mkRoom "datacenter" "Data Center - ON FIRE"
    ("Smoke billows from a bank of overheated servers! Small flames lick at the equipment. " ++
     "The sprinkler system failed. The heat is intense and smoke fills your lungs. " ++
     "You need to put this out or get out fast!")).setDangerous
    "🔥 The smoke and heat are damaging you!").addItem painkiller

/-- gameData.js lines 343–351. -/
def breakroom : Room :=
  ((mkRoom "breakroom" "Employee Break Room"
    ("The break room is eerily quiet. Chairs are overturned. Someone left in a hurry. " ++
     "The vending machine glass is cracked. A microwave door hangs open. " ++
     "There's an unsettling stillness here.")).addItem energydrink).addItem firstaid

/-- gameData.js lines 354–361. -/
def supply : Room :=
  ((mkRoom "supply" "Supply Closet"
    ("A cramped supply closet filled with cleaning products, paper supplies, and safety equipment. " ++
     "The chemical smell is strong but not dangerous. Emergency supplies line the shelves.")).addItem
    gasmask).addItem extinguisher

/-- gameData.js lines 364–371. -/
def executive : Room :=
  (mkRoom "executive" "Executive Office"
    ("An opulent corner office with leather furniture and mahogany desk. " ++
     "Floor-to-ceiling windows overlook the city. A wall safe stands open - empty except for documents. " ++
     "Whoever was here left in a panic.")).addItem accesscard

/-- gameData.js lines 374–380. -/
def archive : Room :=
  mkRoom "archive" "Storage Archive"
    ("Rows of filing cabinets and storage boxes create a maze. The emergency lighting barely " ++
     "penetrates the gloom. Papers are strewn everywhere. You hear strange echoes. " ++
     "Energy drains faster in this disorienting space.")

/-- gameData.js lines 383–391. -/
def mechanical : Room :=
  ((mkRoom "mechanical" "Mechanical Room"
    ("The building's HVAC and machinery room. Pipes rattle and hiss. Something is wrong with " ++
     "the pressure system - steam vents periodically. The noise is deafening. " ++
     "Stay too long and the heat exhaustion will get you.")).setDangerous
    "💨 Steam vents scald you! The heat is unbearable!").addItem wrench

/-- gameData.js lines 394–400. -/
def storage : Room :=
  (mkRoom "storage" "Storage Room"
    ("A cluttered storage room filled with old equipment and supplies. Metal shelving units " ++
     "line the walls. A locked cabinet in the corner looks promising. You'll need something to pry it open.")).addItem
    painkiller

/-- gameData.js lines 403–409 (the JS constant is `executiveHall`). -/
def executiveHall : Room :=
  mkRoom "executive-hall" "Executive Hallway"
    ("A luxurious hallway with dark wood paneling and expensive artwork. The doors are locked " ++
     "except for one office. A biometric scanner guards the boardroom entrance to the north - " ++
     "you'll need the right access card.")

/-- gameData.js lines 412–420. -/
def boardroom : Room :=
  (((mkRoom "boardroom" "Executive Boardroom"
    ("An enormous conference room with a massive table. Floor-to-ceiling windows show the dark city. " ++
     "Someone left in a hurry - papers are scattered, chairs overturned. A safe stands open.")).addItem
    documentItem).addItem roofkey).addItem adrenaline

/-- gameData.js lines 423–429. -/
def itoffice : Room :=
  ((mkRoom "it-office" "IT Department"
    ("Cubicles filled with computer equipment. Multiple monitors glow dimly on battery backup. " ++
     "The IT staff left tools and equipment everywhere. You might find something useful.")).addItem
    batteries).addItem energydrink

/-- gameData.js lines 432–439 (the JS constant is `labHall`). -/
def labHall : Room :=
  (mkRoom "lab-hall" "Research Lab Hallway"
    ("A sterile white hallway. Warning signs are posted everywhere: 'BIOHAZARD', 'AUTHORIZED PERSONNEL ONLY'. " ++
     "The research lab door is sealed. You need the right key to access it.")).addItem labkey

/-- gameData.js lines 442–450 (the JS constant is `researchLab`).  It
holds the very `hazmat` object that the crowbar effect later also adds to
the storage room. -/
def researchLab : Room :=
  ((mkRoom "research-lab" "Research Lab - BIOHAZARD"
    ("WARNING! Chemical spills everywhere. Broken containment units. Whatever they were researching " ++
     "has been released. The air is thick with an unidentifiable mist. Extremely dangerous!")).setDangerous
    "☣️ Toxic chemicals are burning your skin and lungs!").addItem hazmat |>.addItem sedative

/-- gameData.js lines 453–461. -/
def cafeteria : Room :=
  (((mkRoom "cafeteria" "Employee Cafeteria"
    ("A large cafeteria with dozens of tables. The kitchen door is ajar. Food is still on some tables - " ++
     "whatever happened, it happened fast. The vending machines are accessible.")).addItem
    energydrink).addItem coffee).addItem firstaid

/-- gameData.js lines 464–470. -/
def garage : Room :=
  (mkRoom "garage" "Underground Parking Garage"
    ("A dark concrete parking garage. Most of the cars are gone. The few that remain are abandoned. " ++
     "Fluorescent lights flicker overhead. Oil stains and tire marks everywhere. The exit ramp is blocked.")).addItem
    crowbar

/-- gameData.js lines 473–480. -/
def tunnel : Room :=
  (mkRoom "tunnel" "Maintenance Tunnel"
    ("A claustrophobic maintenance tunnel running under the building. Pipes and cables line the walls. " ++
     "Water drips constantly. It's disorienting down here - you can barely tell which way is which. " ++
     "Your energy drains faster in this oppressive space.")).addItem batteries

/-- gameData.js lines 483–491 (the JS constant is `subbasement`; the room
id is `"sub-basement"`). -/
def subbasement : Room :=
  ((mkRoom "sub-basement" "Sub-Basement - Flooded"
    ("The sub-basement is severely flooded. Water is waist-deep and rising. Old machinery looms " ++
     "in the darkness. Something doesn't feel right down here. The water is ice cold and electrified. " ++
     "Get what you need and GET OUT!")).setDangerous
    "⚡❄️ The electrified ice-cold water is deadly!").addItem accesscard

/-- gameData.js lines 494–502. -/
def basement : Room :=
  ((mkRoom "basement" "Basement - Electrical Room"
    ("The basement is flooded with ankle-deep water. Exposed wires dangle from the ceiling. " ++
     "The main breaker panel is here, but you need the right fuse to restore power. " ++
     "Water drips from pipes overhead. Each step sends ripples through the dark water.")).setDangerous
    "⚡ The water is electrified! You're being shocked!").addItem fuse

/-- gameData.js lines 505–510. -/
def roof : Room :=
  mkRoom "roof" "Roof Access"
    ("Fresh air! You emerge onto the roof. The city lights twinkle in the distance. " ++
     "You can see a fire escape ladder leading down to the street. Freedom is so close!")

/-- gameData.js lines 513–518. -/
def freedom : Room :=
  mkRoom "freedom" "FREEDOM!"
    ("You climb down the fire escape and your feet touch the pavement. The cold night air " ++
     "fills your lungs. You made it out alive! The nightmare is over...")

/-- The exit wiring of `initializeGame` (gameData.js lines 521–610),
applied to each room.  Two-argument `addExit` calls pass `locked = false`
and no unlock flag; the four-argument calls carry the lock data. -/
def securityWired : Room :=
  (((security.addExit "north" "lobby" false none).addExit "east" "servers" false
    none).addExit "south" "archive" false none).addExit "west" "storage" false none

def lobbyWired : Room :=
  ((((lobby.addExit "south" "security" false none).addExit "east" "claims" false
    none).addExit "west" "breakroom" false none).addExit "north" "cafeteria" false
    none).addExit "up" "roof" true (some "powerRestored")

def claimsWired : Room :=
  ((((claims.addExit "west" "lobby" false none).addExit "south" "servers" false
    none).addExit "east" "it-office" false none).addExit "north" "executive-hall"
    false none).addExit "down" "basement" true (some "basementUnlocked")

def serversWired : Room :=
  ((servers.addExit "west" "security" false none).addExit "north" "claims" false
    none).addExit "east" "datacenter" false none

def datacenterWired : Room :=
  (datacenter.addExit "west" "servers" false none).addExit "south" "mechanical"
    false none

def breakroomWired : Room :=
  (breakroom.addExit "east" "lobby" false none).addExit "north" "supply" false none

def supplyWired : Room :=
  supply.addExit "south" "breakroom" false none

def executiveWired : Room :=
  executive.addExit "west" "executive-hall" false none

def executiveHallWired : Room :=
  ((executiveHall.addExit "east" "executive" false none).addExit "south" "claims"
    false none).addExit "north" "boardroom" true (some "executiveUnlocked")

def boardroomWired : Room :=
  boardroom.addExit "south" "executive-hall" false none

def itofficeWired : Room :=
  (itoffice.addExit "west" "claims" false none).addExit "east" "lab-hall" false none

def labHallWired : Room :=
  (labHall.addExit "west" "it-office" false none).addExit "east" "research-lab"
    true (some "labUnlocked")

def researchLabWired : Room :=
  researchLab.addExit "west" "lab-hall" false none

def cafeteriaWired : Room :=
  (cafeteria.addExit "south" "lobby" false none).addExit "north" "garage" false none

def garageWired : Room :=
  (garage.addExit "south" "cafeteria" false none).addExit "down" "tunnel" false none

def storageWired : Room :=
  storage.addExit "east" "security" false none

def archiveWired : Room :=
  (archive.addExit "north" "security" false none).addExit "east" "mechanical"
    false none

def mechanicalWired : Room :=
  (mechanical.addExit "west" "archive" false none).addExit "north" "datacenter"
    false none

def tunnelWired : Room :=
  (tunnel.addExit "up" "garage" false none).addExit "down" "sub-basement" false none

def subbasementWired : Room :=
  subbasement.addExit "up" "tunnel" false none

def basementWired : Room :=
  basement.addExit "up" "claims" false none

def roofWired : Room :=
  roof.addExit "down" "lobby" false none

/-- The graph built by `initializeGame` (gameData.js lines 613–637): the
rooms in `addRoom` order, with `setStartRoom("security")`.  The
`graph.validate()` call at lines 640–646 only logs to the console. -/
def gameRooms : List Room :=
  [securityWired, lobbyWired, claimsWired, serversWired, datacenterWired,
   breakroomWired, supplyWired, executiveWired, executiveHallWired,
   boardroomWired, itofficeWired, labHallWired, researchLabWired,
   cafeteriaWired, garageWired, storageWired, archiveWired, mechanicalWired,
   tunnelWired, subbasementWired, basementWired, roofWired, freedom]

/-- The state after `new Game(gameGraph)` (game.js lines 7–40):
`currentRoom` is the start room; all stats at their initial values. -/
def gameStart : Game :=
  { rooms := gameRooms, startRoomId := some "security",
    currentRoomId := "security" }

/-- `Game.init()` (game.js lines 45–51) without the DOM wiring: welcome
text, the first `displayRoom`, and the tick timer installation (the timer
itself fires `Game.tick`). -/
def gameInit : Game :=
  (gameStart.displayWelcome).displayRoom gameStart.currentRoomId

example : gameStart.currentRoom.id = "security" := rfl
example : gameInit.turns = 1 := rfl
example : (gameStart.handleKeyEnter "e").currentRoomId = "servers" := by decide

/-!
The `AdventureGraph` snapshot of the repository (src/unnamed/part_003) and
its companion `Room` representation of that iteration: exits map a
direction to a bare destination id (`this.exits[direction] = destinationId`,
`Object.values(room.exits)` are ids).  The suffix `V` (for "validate")
keeps these apart from the conditional-exit `Room` above.
-/

/-- The `Room` of the bare-destination iteration, restricted to the fields
the graph code reads (`id`, `title`, `description`, `exits`). -/
structure RoomV where
  id : String
  title : String := ""
  description : String := ""
  exits : List (String × String) := []
deriving DecidableEq, Repr

/-- The `AdventureGraph` class state (part_003 lines 7–10): a Map from
room id to room (insertion-ordered) and the start room pointer. -/
structure AdventureGraphV where
  rooms : List (String × RoomV) := []
  startRoomId : Option String := none
deriving DecidableEq, Repr

/-- `AdventureGraph.addRoom(room)` (part_003 lines 17–29): register under
`room.id`; the first room added becomes the start room. -/
def AdventureGraphV.addRoom (g : AdventureGraphV) (room : RoomV) :
    AdventureGraphV :=
  let g := { g with rooms := assocSet g.rooms room.id room }
  match g.startRoomId with
  | none => { g with startRoomId := some room.id }
  | some _ => g

/-- `AdventureGraph.getRoom(roomId)` (part_003 lines 49–51). -/
def AdventureGraphV.getRoom (g : AdventureGraphV) (roomId : String) :
    Option RoomV :=
  assocGet g.rooms roomId

/-- `this.rooms.has(destinationId)` as used by `validate`. -/
def AdventureGraphV.hasRoom (g : AdventureGraphV) (roomId : String) : Bool :=
  (assocGet g.rooms roomId).isSome

/-- Total number of declared exits over all rooms. -/
def AdventureGraphV.totalExits (g : AdventureGraphV) : Nat :=
  (g.rooms.map (fun p => p.2.exits.length)).sum

/-- The broken exits of the graph, in `validate`'s iteration order: the
`(room id, direction, destination)` triples whose destination is not a
registered room (part_003 lines 115–124). -/
def AdventureGraphV.brokenExits (g : AdventureGraphV) :
    List (String × String × String) :=
  g.rooms.flatMap (fun p =>
    p.2.exits.filterMap (fun de =>
      if g.hasRoom de.2 then none else some (p.2.id, de.1, de.2)))

/-- The error string `validate` pushes for a broken exit. -/
def mkBrokenError (t : String × String × String) : String :=
  "Room " ++ t.1 ++ " has broken exit: " ++ t.2.1 ++ " -> " ++ t.2.2

/-- The BFS worklist loop of `validate` (part_003 lines 127–144): pop the
queue head, skip it when already reached, otherwise add it and enqueue
every exit destination not yet reached.  The loop terminates in JS
because the reached set only grows; here a fuel argument bounds the
iteration count, and `bfsFuel` below is proven sufficient. -/
def AdventureGraphV.bfsLoop (g : AdventureGraphV) :
    Nat → List String → List String → List String
  | 0, _, reachable => reachable
  | _ + 1, [], reachable => reachable
  | fuel + 1, roomId :: rest, reachable =>
    if roomId ∈ reachable then g.bfsLoop fuel rest reachable
    else
      let reachable2 := reachable ++ [roomId]
      match g.getRoom roomId with
      | some room =>
        g.bfsLoop fuel
          (rest ++ (room.exits.map Prod.snd).filter
            (fun destId => decide (destId ∉ reachable2)))
          reachable2
      | none => g.bfsLoop fuel rest reachable2

/-- Every id the BFS can ever touch: the start id, the registered room
ids and every exit destination. -/
def AdventureGraphV.universeIds (g : AdventureGraphV) (s : String) :
    List String :=
  s :: (g.rooms.map Prod.fst ++ g.rooms.flatMap (fun p => p.2.exits.map Prod.snd))

/-- A fuel bound sufficient for `bfsLoop` to drain its queue (each
processed id either was already reached, or newly reaches one of at most
`universeIds` elements while enqueueing at most `totalExits` ids). -/
def AdventureGraphV.bfsFuel (g : AdventureGraphV) (s : String) : Nat :=
  1 + (g.universeIds s).length * (g.totalExits + 1)

/-- The reached set computed by `validate`'s BFS (`queue = [startRoomId]`,
`reachable = {}`).  A JS graph with `startRoomId === null` seeds the queue
with `null`, reaches nothing, and every room is warned unreachable; the
empty list models that reached set. -/
def AdventureGraphV.bfsReachable (g : AdventureGraphV) : List String :=
  match g.startRoomId with
  | none => []
  | some s => g.bfsLoop (g.bfsFuel s) [s] []

/-- The `{valid, errors, warnings}` result of `validate`. -/
structure ValidationResult where
  valid : Bool
  errors : List String
  warnings : List String
deriving DecidableEq, Repr

/-- `AdventureGraph.validate()` (part_003 lines 94–154): empty graph and
missing start room are hard errors; every broken exit is a hard error (in
room/exit order) and clears `valid`; every room not reached by the BFS
over all declared exits gets a warning. -/
def AdventureGraphV.validate (g : AdventureGraphV) : ValidationResult :=
  if g.rooms.length = 0 then ⟨false, ["Graph has no rooms"], []⟩
  else
    let startErrors :=
      if g.startRoomId = none then ["No start room set"] else []
    let errors := startErrors ++ g.brokenExits.map mkBrokenError
    let reachable := g.bfsReachable
    let warnings := (g.rooms.map Prod.fst).filterMap (fun roomId =>
      if roomId ∈ reachable then none
      else some ("Room " ++ roomId ++ " is unreachable from start"))
    ⟨errors.isEmpty, errors, warnings⟩

/-- One step along a declared exit, regardless of anything but the exit
table: room `a` is registered and has some exit whose destination is `b`. -/
def AdventureGraphV.edge (g : AdventureGraphV) (a b : String) : Prop :=
  ∃ room, g.getRoom a = some room ∧ b ∈ room.exits.map Prod.snd

/-!
Definitions used by the theorem statements: event counters over the
output log, modification sequences, item bookkeeping, and the concrete
states and runs the concrete theorems evaluate.
-/

/-- The headline line `Game.die` emits. -/
def deathLine : OutLine := ⟨"💀 GAME OVER 💀", "error"⟩

/-- How many times the death narration has been emitted. -/
def Game.deathCount (g : Game) : Nat :=
  g.output.countP (fun line => line = deathLine)

/-- The exhaustion-penalty line of the hazard tick. -/
def collapseLine : OutLine := ⟨"You collapse from exhaustion!", "error"⟩

/-- How many times the exhaustion penalty has been reported. -/
def Game.collapseCount (g : Game) : Nat :=
  g.output.countP (fun line => line = collapseLine)

/-- A sequence of resource modifications: `(true, a)` is
`modifyHealth(a)`, `(false, a)` is `modifyEnergy(a)`. -/
def Game.applyMods (g : Game) (mods : List (Bool × Int)) : Game :=
  mods.foldl
    (fun acc m => if m.1 then acc.modifyHealth m.2 else acc.modifyEnergy m.2) g

/-- How many copies of an item value all containers hold together: the
player inventory plus every room's item list. -/
def Game.containerCount (g : Game) (item : Item) : Nat :=
  g.inventory.count item +
    (g.rooms.map (fun r => r.items.count item)).sum

/-- A command sequence that installs the shipped fuse at the basement
panel (the only install effect in gameData.js) and then issues
`remove fuse` at the server-room breaker panel: fetch the basement key
from the server room, unlock the basement from claims, take and use the
fuse there, then walk to the server room and remove. -/
def c2Commands : List String :=
  ["e", "take basement-key", "w", "n", "e", "use basement-key", "d",
   "take fuse", "use fuse", "u", "s", "remove fuse"]

/-- The state after running `c2Commands` from the freshly initialised
game. -/
def c2run : Game := c2Commands.foldl Game.handleKeyEnter gameInit

/-- The initial game with the player standing in the flooded sub-basement
(the room gameData.js creates with id `"sub-basement"`, dangerous from the
start). -/
def subbasementState : Game :=
  { gameStart with currentRoomId := "sub-basement" }

/-- The initial game with the player dead (for the terminal-state
witness). -/
def deadState : Game := { gameStart with isDead := true }

/-- The initial game with the player in the lobby (whose `up` exit to the
roof is declared locked behind `powerRestored`). -/
def lobbyState : Game := { gameStart with currentRoomId := "lobby" }

/-- The initial game with the player in the disorienting archive at
2 energy (the next tick drains it to 0). -/
def archiveState : Game :=
  { gameStart with currentRoomId := "archive", energy := 2 }

/-- The initial game with the player in the contaminated claims room,
carrying the gas mask. -/
def claimsMaskState : Game :=
  { gameStart with currentRoomId := "claims", inventory := [gasmask] }

/-- The initial game with the player in the contaminated claims room,
carrying nothing. -/
def claimsNoMaskState : Game := { gameStart with currentRoomId := "claims" }

/-- A command sequence that fetches the crowbar from the garage and pries
the storage cabinet open. -/
def c9Commands : List String :=
  ["n", "n", "n", "take crowbar", "s", "s", "s", "w", "use crowbar"]

/-- The state after running `c9Commands` from the freshly initialised
game. -/
def c9run : Game := c9Commands.foldl Game.handleKeyEnter gameInit

/-- A small concrete graph for the validation witness: `a` (start) exits
to `b` and to the unregistered `zzz`; `c` is unreachable. -/
def roomVa : RoomV := ⟨"a", "A", "", [("north", "b"), ("east", "zzz")]⟩

def roomVb : RoomV := ⟨"b", "B", "", [("south", "a")]⟩

def roomVc : RoomV := ⟨"c", "C", "", []⟩

def graphExample : AdventureGraphV :=
  ((({} : AdventureGraphV).addRoom roomVa).addRoom roomVb).addRoom roomVc

lemma assocGet_mem {β : Type} {l : List (String × β)} {k : String} {v : β}
    (h : assocGet l k = some v) : (k, v) ∈ l := by
  induction l with
  | nil => simp [assocGet] at h
  | cons p rest ih =>
    obtain ⟨a, b⟩ := p
    by_cases hk : a = k
    · rw [assocGet, if_pos hk] at h
      injection h with hbv
      rw [← hk, ← hbv]
      exact List.mem_cons_self _ _
    · rw [assocGet, if_neg hk] at h
      exact List.mem_cons_of_mem _ (ih h)

lemma exits_length_le_totalExits (g : AdventureGraphV) {roomId : String}
    {room : RoomV} (h : g.getRoom roomId = some room) :
    room.exits.length ≤ g.totalExits := by
  have hmem : (roomId, room) ∈ g.rooms := assocGet_mem h
  have : room.exits.length ∈ g.rooms.map (fun p => p.2.exits.length) :=
    List.mem_map_of_mem _ hmem
  exact List.single_le_sum (fun x _ => Nat.zero_le x) _ this

lemma dest_mem_universe (g : AdventureGraphV) (s : String) {roomId : String}
    {room : RoomV} (h : g.getRoom roomId = some room) {d : String}
    (hd : d ∈ room.exits.map Prod.snd) : d ∈ g.universeIds s := by
  have hmem : (roomId, room) ∈ g.rooms := assocGet_mem h
  have : d ∈ g.rooms.flatMap (fun p => p.2.exits.map Prod.snd) :=
    List.mem_flatMap.mpr ⟨(roomId, room), hmem, hd⟩
  simp [AdventureGraphV.universeIds, this]

lemma nodup_length_le_dedup {l l' : List String} (hn : l.Nodup)
    (hs : l ⊆ l') : l.length ≤ l'.dedup.length := by
  calc l.length = l.toFinset.card := (List.toFinset_card_of_nodup hn).symm
    _ ≤ l'.toFinset.card := by
        apply Finset.card_le_card
        intro x hx
        rw [List.mem_toFinset] at hx ⊢
        exact hs hx
    _ = l'.dedup.length := List.card_toFinset l'

/-- The BFS worklist loop, run with enough fuel and from a consistent
queue/reached pair, computes a set that contains its seeds, is sound for
edge-reachability from `s`, and is closed under `edge`. -/
lemma bfsLoop_spec (g : AdventureGraphV) (s : String) :
    ∀ (fuel : Nat) (queue reachable : List String),
    queue ⊆ g.universeIds s →
    reachable ⊆ g.universeIds s →
    reachable.Nodup →
    queue.length +
      ((g.universeIds s).dedup.length - reachable.length) *
        (g.totalExits + 1) ≤ fuel →
    (∀ x, x ∈ reachable ∨ x ∈ queue → Relation.ReflTransGen g.edge s x) →
    (∀ x ∈ reachable, ∀ y, g.edge x y → y ∈ reachable ∨ y ∈ queue) →
    reachable ⊆ g.bfsLoop fuel queue reachable ∧
    queue ⊆ g.bfsLoop fuel queue reachable ∧
    (∀ x ∈ g.bfsLoop fuel queue reachable,
      Relation.ReflTransGen g.edge s x) ∧
    (∀ x ∈ g.bfsLoop fuel queue reachable, ∀ y, g.edge x y →
      y ∈ g.bfsLoop fuel queue reachable) := by
  intro fuel
  induction fuel with
  | zero =>
    intro queue reachable hqU hrU hnd hfuel hsound hclosed
    have hq : queue = [] := by
      have h1 : queue.length = 0 := by omega
      exact List.length_eq_zero.mp h1
    subst hq
    simp only [AdventureGraphV.bfsLoop]
    refine ⟨fun x hx => hx, by simp, fun x hx => hsound x (Or.inl hx), ?_⟩
    intro x hx y hy
    rcases hclosed x hx y hy with h | h
    · exact h
    · simp at h
  | succ fuel ih =>
    intro queue reachable hqU hrU hnd hfuel hsound hclosed
    cases queue with
    | nil =>
      simp only [AdventureGraphV.bfsLoop]
      refine ⟨fun x hx => hx, by simp, fun x hx => hsound x (Or.inl hx), ?_⟩
      intro x hx y hy
      rcases hclosed x hx y hy with h | h
      · exact h
      · simp at h
    | cons roomId rest =>
      have hqU' : rest ⊆ g.universeIds s :=
        fun x hx => hqU (List.mem_cons_of_mem _ hx)
      have hridU : roomId ∈ g.universeIds s := hqU (List.mem_cons_self _ _)
      by_cases hmem : roomId ∈ reachable
      · have heq : g.bfsLoop (fuel + 1) (roomId :: rest) reachable =
            g.bfsLoop fuel rest reachable := by
          simp [AdventureGraphV.bfsLoop, hmem]
        have hfuel' : rest.length +
            ((g.universeIds s).dedup.length - reachable.length) *
              (g.totalExits + 1) ≤ fuel := by
          simp only [List.length_cons] at hfuel
          omega
        have hsound' : ∀ x, x ∈ reachable ∨ x ∈ rest →
            Relation.ReflTransGen g.edge s x := by
          intro x hx
          rcases hx with hx | hx
          · exact hsound x (Or.inl hx)
          · exact hsound x (Or.inr (List.mem_cons_of_mem _ hx))
        have hclosed' : ∀ x ∈ reachable, ∀ y, g.edge x y →
            y ∈ reachable ∨ y ∈ rest := by
          intro x hx y hy
          rcases hclosed x hx y hy with h | h
          · exact Or.inl h
          · rcases List.mem_cons.mp h with h | h
            · exact Or.inl (h ▸ hmem)
            · exact Or.inr h
        obtain ⟨h1, h2, h3, h4⟩ :=
          ih rest reachable hqU' hrU hnd hfuel' hsound' hclosed'
        rw [heq]
        refine ⟨h1, ?_, h3, h4⟩
        intro x hx
        rcases List.mem_cons.mp hx with h | h
        · exact h1 (h ▸ hmem)
        · exact h2 h
      · have hr2U : reachable ++ [roomId] ⊆ g.universeIds s := by
          intro x hx
          rcases List.mem_append.mp hx with h | h
          · exact hrU h
          · simp at h
            exact h ▸ hridU
        have hnd2 : (reachable ++ [roomId]).Nodup := by
          rw [List.nodup_append]
          refine ⟨hnd, List.nodup_singleton _, ?_⟩
          intro a ha hb
          simp at hb
          exact hmem (hb ▸ ha)
        have hr2len : (reachable ++ [roomId]).length =
            reachable.length + 1 := by simp
        have hr2D : reachable.length + 1 ≤
            (g.universeIds s).dedup.length := by
          have := nodup_length_le_dedup hnd2 hr2U
          omega
        have hsplit : ((g.universeIds s).dedup.length - reachable.length) *
            (g.totalExits + 1) =
            ((g.universeIds s).dedup.length - (reachable.length + 1)) *
              (g.totalExits + 1) + (g.totalExits + 1) := by
          have hd : (g.universeIds s).dedup.length - reachable.length =
              ((g.universeIds s).dedup.length - (reachable.length + 1)) + 1 := by
            omega
          rw [hd, Nat.add_mul, one_mul]
        have hsound2 : ∀ x, x ∈ reachable ++ [roomId] →
            Relation.ReflTransGen g.edge s x := by
          intro x hx
          rcases List.mem_append.mp hx with h | h
          · exact hsound x (Or.inl h)
          · simp at h
            exact h ▸ hsound roomId (Or.inr (List.mem_cons_self _ _))
        cases hroom : g.getRoom roomId with
        | some room =>
          have heq : g.bfsLoop (fuel + 1) (roomId :: rest) reachable =
              g.bfsLoop fuel
                (rest ++ (room.exits.map Prod.snd).filter
                  (fun destId => decide (destId ∉ reachable ++ [roomId])))
                (reachable ++ [roomId]) := by
            simp [AdventureGraphV.bfsLoop, hmem, hroom]
          set pushed := (room.exits.map Prod.snd).filter
            (fun destId => decide (destId ∉ reachable ++ [roomId])) with hpushed
          have hpushedMem : ∀ x ∈ pushed,
              x ∈ room.exits.map Prod.snd ∧ x ∉ reachable ++ [roomId] := by
            intro x hx
            rw [hpushed, List.mem_filter] at hx
            exact ⟨hx.1, by simpa using hx.2⟩
          have hqU2 : rest ++ pushed ⊆ g.universeIds s := by
            intro x hx
            rcases List.mem_append.mp hx with h | h
            · exact hqU' h
            · exact dest_mem_universe g s hroom (hpushedMem x h).1
          have hplen : pushed.length ≤ g.totalExits := by
            calc pushed.length ≤ (room.exits.map Prod.snd).length :=
                List.length_filter_le _ _
              _ = room.exits.length := List.length_map _ _
              _ ≤ g.totalExits := exits_length_le_totalExits g hroom
          have hfuel2 : (rest ++ pushed).length +
              ((g.universeIds s).dedup.length -
                (reachable ++ [roomId]).length) * (g.totalExits + 1) ≤ fuel := by
            rw [List.length_append, hr2len]
            rw [List.length_cons, hsplit] at hfuel
            omega
          have hsound2' : ∀ x, x ∈ reachable ++ [roomId] ∨
              x ∈ rest ++ pushed → Relation.ReflTransGen g.edge s x := by
            intro x hx
            rcases hx with hx | hx
            · exact hsound2 x hx
            · rcases List.mem_append.mp hx with h | h
              · exact hsound x (Or.inr (List.mem_cons_of_mem _ h))
              · have hedge : g.edge roomId x :=
                  ⟨room, hroom, (hpushedMem x h).1⟩
                exact Relation.ReflTransGen.tail
                  (hsound roomId (Or.inr (List.mem_cons_self _ _))) hedge
          have hclosed2 : ∀ x ∈ reachable ++ [roomId], ∀ y, g.edge x y →
              y ∈ reachable ++ [roomId] ∨ y ∈ rest ++ pushed := by
            intro x hx y hy
            rcases List.mem_append.mp hx with hx | hx
            · rcases hclosed x hx y hy with h | h
              · exact Or.inl (List.mem_append_left _ h)
              · rcases List.mem_cons.mp h with h | h
                · exact Or.inl (List.mem_append_right _ (by simp [h]))
                · exact Or.inr (List.mem_append_left _ h)
            · simp only [List.mem_singleton] at hx
              obtain ⟨room', hroom', hy'⟩ := hx ▸ hy
              rw [hroom] at hroom'
              injection hroom' with hroom'
              subst hroom'
              by_cases hyr : y ∈ reachable ++ [roomId]
              · exact Or.inl hyr
              · refine Or.inr (List.mem_append_right _ ?_)
                rw [hpushed, List.mem_filter]
                exact ⟨hy', by simpa using hyr⟩
          obtain ⟨h1, h2, h3, h4⟩ := ih (rest ++ pushed)
            (reachable ++ [roomId]) hqU2 hr2U hnd2 hfuel2 hsound2' hclosed2
          rw [heq]
          refine ⟨?_, ?_, h3, h4⟩
          · intro x hx
            exact h1 (List.mem_append_left _ hx)
          · intro x hx
            rcases List.mem_cons.mp hx with h | h
            · exact h1 (List.mem_append_right _ (by simp [h]))
            · exact h2 (List.mem_append_left _ h)
        | none =>
          have heq : g.bfsLoop (fuel + 1) (roomId :: rest) reachable =
              g.bfsLoop fuel rest (reachable ++ [roomId]) := by
            simp [AdventureGraphV.bfsLoop, hmem, hroom]
          have hfuel2 : rest.length +
              ((g.universeIds s).dedup.length -
                (reachable ++ [roomId]).length) * (g.totalExits + 1) ≤ fuel := by
            rw [hr2len]
            rw [List.length_cons, hsplit] at hfuel
            omega
          have hsound2' : ∀ x, x ∈ reachable ++ [roomId] ∨ x ∈ rest →
              Relation.ReflTransGen g.edge s x := by
            intro x hx
            rcases hx with hx | hx
            · exact hsound2 x hx
            · exact hsound x (Or.inr (List.mem_cons_of_mem _ hx))
          have hclosed2 : ∀ x ∈ reachable ++ [roomId], ∀ y, g.edge x y →
              y ∈ reachable ++ [roomId] ∨ y ∈ rest := by
            intro x hx y hy
            rcases List.mem_append.mp hx with hx | hx
            · rcases hclosed x hx y hy with h | h
              · exact Or.inl (List.mem_append_left _ h)
              · rcases List.mem_cons.mp h with h | h
                · exact Or.inl (List.mem_append_right _ (by simp [h]))
                · exact Or.inr h
            · simp only [List.mem_singleton] at hx
              obtain ⟨room', hroom', _⟩ := hx ▸ hy
              rw [hroom] at hroom'
              cases hroom'
          obtain ⟨h1, h2, h3, h4⟩ := ih rest (reachable ++ [roomId])
            hqU' hr2U hnd2 hfuel2 hsound2' hclosed2
          rw [heq]
          refine ⟨?_, ?_, h3, h4⟩
          · intro x hx
            exact h1 (List.mem_append_left _ hx)
          · intro x hx
            rcases List.mem_cons.mp hx with h | h
            · exact h1 (List.mem_append_right _ (by simp [h]))
            · exact h2 h

/-- The reached set of `validate`'s BFS is exactly the set of ids
reachable from the start id along declared exits. -/
lemma bfsReachable_spec (g : AdventureGraphV) (s : String)
    (h : g.startRoomId = some s) :
    ∀ x, x ∈ g.bfsReachable ↔ Relation.ReflTransGen g.edge s x := by
  have hsU : s ∈ g.universeIds s := List.mem_cons_self _ _
  have hfuel : (1 : Nat) +
      ((g.universeIds s).dedup.length - 0) * (g.totalExits + 1) ≤
      g.bfsFuel s := by
    have hD : (g.universeIds s).dedup.length ≤ (g.universeIds s).length :=
      List.Sublist.length_le (List.dedup_sublist _)
    have := Nat.mul_le_mul_right (g.totalExits + 1) hD
    simp only [AdventureGraphV.bfsFuel, Nat.sub_zero]
    omega
  obtain ⟨h1, h2, h3, h4⟩ := bfsLoop_spec g s (g.bfsFuel s) [s] []
    (by intro x hx; simp at hx; exact hx ▸ hsU)
    (by intro x hx; simp at hx)
    List.nodup_nil
    (by simpa using hfuel)
    (by
      intro x hx
      rcases hx with hx | hx
      · simp at hx
      · simp at hx
        exact hx ▸ Relation.ReflTransGen.refl)
    (by intro x hx; simp at hx)
  have hR : g.bfsReachable = g.bfsLoop (g.bfsFuel s) [s] [] := by
    simp [AdventureGraphV.bfsReachable, h]
  intro x
  rw [hR]
  constructor
  · exact h3 x
  · intro hx
    induction hx with
    | refl => exact h2 (List.mem_singleton_self _)
    | tail hab hbc ihx => exact h4 _ ihx _ hbc

lemma addOutput_fields (g : Game) (t c : String) :
    (g.addOutput t c).health = g.health ∧
    (g.addOutput t c).energy = g.energy ∧
    (g.addOutput t c).isDead = g.isDead ∧
    (g.addOutput t c).currentRoomId = g.currentRoomId ∧
    (g.addOutput t c).inventory = g.inventory ∧
    (g.addOutput t c).rooms = g.rooms ∧
    (g.addOutput t c).gameState = g.gameState ∧
    (g.addOutput t c).maxHealth = g.maxHealth ∧
    (g.addOutput t c).maxEnergy = g.maxEnergy := by
  simp [Game.addOutput]

lemma deathCount_addOutput (g : Game) (t c : String) :
    (g.addOutput t c).deathCount =
      g.deathCount + (if (⟨t, c⟩ : OutLine) = deathLine then 1 else 0) := by
  simp [Game.addOutput, Game.deathCount, List.countP_append, List.countP_cons]

lemma collapseCount_addOutput (g : Game) (t c : String) :
    (g.collapseCount : Nat) ≤ (g.addOutput t c).collapseCount ∧
    (g.addOutput t c).collapseCount =
      g.collapseCount + (if (⟨t, c⟩ : OutLine) = collapseLine then 1 else 0) := by
  constructor
  · simp [Game.addOutput, Game.collapseCount, List.countP_append]
  · simp [Game.addOutput, Game.collapseCount, List.countP_append,
      List.countP_cons]

lemma die_fields (g : Game) :
    g.die.isDead = true ∧ g.die.health = g.health ∧
    g.die.energy = g.energy ∧ g.die.maxHealth = g.maxHealth ∧
    g.die.maxEnergy = g.maxEnergy ∧
    g.die.currentRoomId = g.currentRoomId := by
  simp [Game.die, Game.addOutput]

lemma die_deathCount (g : Game) : g.die.deathCount = g.deathCount + 1 := by
  simp [Game.die, Game.addOutput, Game.deathCount, List.countP_append,
    List.countP_cons, deathLine, sep70]

lemma die_collapseCount (g : Game) :
    g.die.collapseCount = g.collapseCount := by
  simp [Game.die, Game.addOutput, Game.collapseCount, List.countP_append,
    List.countP_cons, collapseLine, sep70]

lemma modifyHealth_health (g : Game) (a : Int) :
    (g.modifyHealth a).health = max 0 (min g.maxHealth (g.health + a)) := by
  unfold Game.modifyHealth
  dsimp only
  split
  · exact (die_fields _).2.1
  · split
    · simp [Game.addOutput]
    · split <;> simp [Game.addOutput]

lemma modifyHealth_frame (g : Game) (a : Int) :
    (g.modifyHealth a).energy = g.energy ∧
    (g.modifyHealth a).maxHealth = g.maxHealth ∧
    (g.modifyHealth a).maxEnergy = g.maxEnergy ∧
    (g.modifyHealth a).currentRoomId = g.currentRoomId := by
  unfold Game.modifyHealth
  dsimp only
  split
  · obtain ⟨_, _, h3, h4, h5, h6⟩ := die_fields
      { g with health := max 0 (min g.maxHealth (g.health + a)) }
    exact ⟨h3, h4, h5, h6⟩
  · split
    · simp [Game.addOutput]
    · split <;> simp [Game.addOutput]

lemma modifyHealth_isDead (g : Game) (a : Int) :
    (g.modifyHealth a).isDead =
      (g.isDead || decide (max 0 (min g.maxHealth (g.health + a)) ≤ 0)) := by
  unfold Game.modifyHealth
  dsimp only
  split
  next hb =>
    simp only [Bool.and_eq_true, decide_eq_true_eq, Bool.not_eq_true'] at hb
    rw [(die_fields _).1]
    simp [hb.1, hb.2]
  next hb =>
    simp only [Bool.and_eq_true, decide_eq_true_eq, Bool.not_eq_true',
      not_and] at hb
    have : (g.isDead || decide (max 0 (min g.maxHealth (g.health + a)) ≤ 0)) =
        g.isDead := by
      by_cases hle : max 0 (min g.maxHealth (g.health + a)) ≤ 0
      · simp [hb hle]
      · simp [hle]
    rw [this]
    split
    · simp [Game.addOutput]
    · split <;> simp [Game.addOutput]

lemma modifyHealth_deathCount (g : Game) (a : Int) :
    (g.modifyHealth a).deathCount = g.deathCount +
      (if max 0 (min g.maxHealth (g.health + a)) ≤ 0 ∧ g.isDead = false
        then 1 else 0) := by
  unfold Game.modifyHealth
  dsimp only
  split
  next hb =>
    simp only [Bool.and_eq_true, decide_eq_true_eq, Bool.not_eq_true'] at hb
    rw [die_deathCount]
    simp only [Game.deathCount, Game.addOutput]
    simp [hb.1, hb.2]
  next hb =>
    simp only [Bool.and_eq_true, decide_eq_true_eq, Bool.not_eq_true',
      not_and] at hb
    have hif : (if max 0 (min g.maxHealth (g.health + a)) ≤ 0 ∧
        g.isDead = false then 1 else 0) = 0 := by
      by_cases hle : max 0 (min g.maxHealth (g.health + a)) ≤ 0
      · simp [hb hle]
      · simp [hle]
    rw [hif]
    split
    · simp [Game.addOutput, Game.deathCount, List.countP_append,
        List.countP_cons, deathLine]
    · split
      · simp [Game.addOutput, Game.deathCount, List.countP_append,
          List.countP_cons, deathLine]
      · simp [Game.deathCount]

lemma modifyHealth_collapseCount (g : Game) (a : Int) :
    (g.modifyHealth a).collapseCount = g.collapseCount := by
  unfold Game.modifyHealth
  dsimp only
  split
  · rw [die_collapseCount]
    simp [Game.collapseCount]
  · split
    · simp [Game.addOutput, Game.collapseCount, List.countP_append,
        List.countP_cons, collapseLine]
    · split
      · simp [Game.addOutput, Game.collapseCount, List.countP_append,
          List.countP_cons, collapseLine]
      · simp [Game.collapseCount]

lemma modifyEnergy_energy (g : Game) (a : Int) :
    (g.modifyEnergy a).energy = max 0 (min g.maxEnergy (g.energy + a)) := by
  unfold Game.modifyEnergy
  dsimp only
  split <;> simp [Game.addOutput]

lemma modifyEnergy_frame' (g : Game) (a : Int) :
    (g.modifyEnergy a).health = g.health ∧
    (g.modifyEnergy a).isDead = g.isDead ∧
    (g.modifyEnergy a).maxHealth = g.maxHealth ∧
    (g.modifyEnergy a).maxEnergy = g.maxEnergy ∧
    (g.modifyEnergy a).currentRoomId = g.currentRoomId ∧
    (g.modifyEnergy a).deathCount = g.deathCount ∧
    (g.modifyEnergy a).collapseCount = g.collapseCount := by
  unfold Game.modifyEnergy
  dsimp only
  split <;>
    simp [Game.addOutput, Game.deathCount, Game.collapseCount,
      List.countP_append, List.countP_cons, deathLine, collapseLine]

/-- C1: for every room, direction `d` and flag bag `g`,
`Room.getExit(d, g)` returns a non-null destination id iff an exit in
direction `d` is registered on the room and (the exit's `locked` flag is
false or `g[unlockFlag]` is true) — and then it is that exit's
destination; otherwise it returns null. -/
theorem getExit_lock_spec (r : Room) (d : String) (gs : GState) :
    (∀ dest : String, r.getExit d gs = some dest ↔
      ∃ e, assocGet r.exits (jsToLower d) = some e ∧ e.destination = dest ∧
        (e.locked = false ∨ gs.getOpt e.unlockCondition = true)) ∧
    (r.getExit d gs = none ↔
      ∀ e, assocGet r.exits (jsToLower d) = some e →
        e.locked = true ∧ gs.getOpt e.unlockCondition = false) := by
  unfold Room.getExit
  cases hl : assocGet r.exits (jsToLower d) with
  | none =>
    dsimp only
    constructor
    · intro dest
      simp
    · simp
  | some e =>
    dsimp only
    by_cases hc : (e.locked && !gs.getOpt e.unlockCondition) = true
    · rw [if_pos hc]
      have hc' : e.locked = true ∧ gs.getOpt e.unlockCondition = false := by
        simpa using hc
      constructor
      · intro dest
        constructor
        · intro h
          exact Option.noConfusion h
        · rintro ⟨e', he', hdest, hcase⟩
          injection he' with he'
          subst he'
          rcases hcase with h | h
          · rw [hc'.1] at h
            simp at h
          · rw [hc'.2] at h
            simp at h
      · constructor
        · intro _ e' he'
          injection he' with he'
          subst he'
          exact hc'
        · intro _
          rfl
    · rw [if_neg hc]
      have hc' : e.locked = false ∨ gs.getOpt e.unlockCondition = true := by
        cases hLk : e.locked
        · exact Or.inl rfl
        · cases hFl : gs.getOpt e.unlockCondition
          · exfalso
            apply hc
            rw [hLk, hFl]
            rfl
          · exact Or.inr rfl
      constructor
      · intro dest
        constructor
        · intro h
          injection h with h
          exact ⟨e, rfl, h, hc'⟩
        · rintro ⟨e', he', hdest, _⟩
          injection he' with he'
          subst he'
          rw [hdest]
      · constructor
        · intro h
          exact Option.noConfusion h
        · intro hall
          exfalso
          rcases hc' with h | h
          · have h2 := (hall e rfl).1
            rw [h] at h2
            simp at h2
          · have h2 := (hall e rfl).2
            rw [h] at h2
            simp at h2

/-- C3: in a terminal state (dead or won), one hazard tick is the
identity on the whole game state (the tick checks the terminal state
first), and the command entry point processes no command (the Enter
handler drops input in terminal states), so no simulation state mutates. -/
theorem terminal_no_mutation (g : Game)
    (h : g.isDead = true ∨ g.hasWon = true) :
    g.tick = g ∧ ∀ rawInput : String, g.handleKeyEnter rawInput = g := by
  constructor
  · unfold Game.tick
    rcases h with h | h <;> simp [h]
  · intro rawInput
    unfold Game.handleKeyEnter
    rcases h with h | h <;> simp [h]

/-- Witness: the tick and a movement command are no-ops on a concrete
dead state. -/
theorem terminal_no_mutation_witness :
    deadState.tick = deadState ∧
    deadState.handleKeyEnter "north" = deadState := by
  have h := terminal_no_mutation deadState (Or.inl rfl)
  exact ⟨h.1, h.2 "north"⟩

/-- C10 (implicit frame property): `Game.modifyEnergy` changes only the
energy field, clamped to `[0, maxEnergy]`; health, isDead, hasWon,
inventory, currentRoomId, turns, gameState flags and every room (danger
flags included) are unchanged.  In particular energy reaching 0 never by
itself sets `isDead`: death only arises in `modifyHealth`/`die`. -/
theorem modifyEnergy_frame (g : Game) (amount : Int) :
    (g.modifyEnergy amount).energy =
      max 0 (min g.maxEnergy (g.energy + amount)) ∧
    (g.modifyEnergy amount).health = g.health ∧
    (g.modifyEnergy amount).isDead = g.isDead ∧
    (g.modifyEnergy amount).hasWon = g.hasWon ∧
    (g.modifyEnergy amount).inventory = g.inventory ∧
    (g.modifyEnergy amount).currentRoomId = g.currentRoomId ∧
    (g.modifyEnergy amount).turns = g.turns ∧
    (g.modifyEnergy amount).gameState = g.gameState ∧
    (g.modifyEnergy amount).rooms = g.rooms ∧
    (g.modifyEnergy amount).maxHealth = g.maxHealth ∧
    (g.modifyEnergy amount).maxEnergy = g.maxEnergy := by
  unfold Game.modifyEnergy
  dsimp only
  split <;> simp [Game.addOutput]

set_option maxRecDepth 8000 in
/-- C5 (code_bug evidence): the hazard tick deals the base damage of 5 in
the flooded sub-basement instead of the 10-damage override, because the
override compares the current room id against `"subbasement"` while
gameData.js registers the room as `"sub-basement"` (no room of the shipped
graph carries the id the override tests).  The protection clauses of the
claim do hold: the gas mask suppresses the toxic claims damage entirely,
and an unprotected stay in claims costs exactly the base 5. -/
theorem subbasement_tick_base_damage :
    subbasementState.currentRoom.id = "sub-basement" ∧
    subbasementState.currentRoom.isDangerous = true ∧
    subbasementState.health = 100 ∧
    subbasementState.tick.health = 95 ∧
    (gameRooms.any (fun r => r.id = "subbasement")) = false ∧
    claimsMaskState.tick.health = 100 ∧
    claimsNoMaskState.tick.health = 95 := by decide

set_option maxRecDepth 8000 in
/-- C2 (code_bug evidence): installing the shipped fuse (gameData.js
effect, at the basement panel) and then issuing `remove fuse` at the
server-room breaker panel is not a round trip.  The install effect never
sets `fuseInstalled`, so `removeFuse` refuses with "There's no fuse
installed in the breaker panel." and nothing is inverted: power stays
restored, the claims room stays safe (it was dangerous before the
install), and the fuse does not re-enter the inventory. -/
theorem fuse_install_remove_no_roundtrip :
    gameStart.gameState.powerRestored = false ∧
    gameStart.gameState.fuseInstalled = false ∧
    ((gameStart.getRoom "claims").getD dummyRoom).isDangerous = true ∧
    ((gameStart.getRoom "basement").getD dummyRoom).items.count fuse = 1 ∧
    c2run.currentRoomId = "servers" ∧
    c2run.output.getLast? =
      some ⟨"There's no fuse installed in the breaker panel.", "normal"⟩ ∧
    c2run.gameState.powerRestored = true ∧
    c2run.gameState.fuseInstalled = false ∧
    ((c2run.getRoom "claims").getD dummyRoom).isDangerous = false ∧
    (c2run.inventory.any (fun item => item.id = "fuse")) = false := by decide

set_option maxRecDepth 8000 in
/-- C9 counterexample: single ownership fails on the shipped content.
At the (reachable) initial state the one energy-drink item constructed by
`initializeGame` sits in four rooms at once (lobby, break room, IT office,
cafeteria); and after fetching the crowbar and prying the storage cabinet
open, the one hazmat-suit item is owned by both the research lab and the
storage room, and the one adrenaline item by both the boardroom and the
storage room. -/
theorem item_single_owner_counterexample :
    gameStart.containerCount energydrink = 4 ∧
    ((gameStart.getRoom "lobby").getD dummyRoom).items.count energydrink = 1 ∧
    ((gameStart.getRoom "breakroom").getD dummyRoom).items.count
      energydrink = 1 ∧
    ((c9run.getRoom "research-lab").getD dummyRoom).items.count hazmat = 1 ∧
    ((c9run.getRoom "storage").getD dummyRoom).items.count hazmat = 1 ∧
    ((c9run.getRoom "boardroom").getD dummyRoom).items.count adrenaline = 1 ∧
    ((c9run.getRoom "storage").getD dummyRoom).items.count adrenaline = 1 := by
  decide

/-- C6: when movement fails, the two cases are distinguished and the
player does not move.  If no exit is registered in the direction, the
generic can't-go line is emitted; if an exit is registered but locked with
its unlock flag unset, the flag-specific hint line
(`lockedExitMessage`) is emitted instead.  Either way the state change is
exactly that one error line: `currentRoomId` (and everything else) is
untouched. -/
theorem movePlayer_failure_messages (g : Game) (room : Room) (d : String)
    (hroom : g.getRoom g.currentRoomId = some room) :
    (assocGet room.exits (jsToLower d) = none →
      g.movePlayer d =
        g.addOutput ("You can't go " ++ d ++ " from here.") "error" ∧
      (g.movePlayer d).currentRoomId = g.currentRoomId) ∧
    (∀ e, assocGet room.exits (jsToLower d) = some e → e.locked = true →
      g.gameState.getOpt e.unlockCondition = false →
      g.movePlayer d =
        g.addOutput (lockedExitMessage e.unlockCondition) "error" ∧
      (g.movePlayer d).currentRoomId = g.currentRoomId) := by
  have hcur : g.currentRoom = room := by
    unfold Game.currentRoom
    rw [hroom]
    rfl
  constructor
  · intro hnone
    have hexit : room.getExit d g.gameState = none := by
      unfold Room.getExit
      rw [hnone]
    have hmove : g.movePlayer d =
        g.addOutput ("You can't go " ++ d ++ " from here.") "error" := by
      unfold Game.movePlayer
      rw [hcur, hexit, hnone]
    exact ⟨hmove, by rw [hmove]; simp [Game.addOutput]⟩
  · intro e he hLk hFl
    have hexit : room.getExit d g.gameState = none := by
      unfold Room.getExit
      rw [he]
      simp [hLk, hFl]
    have hmove : g.movePlayer d =
        g.addOutput (lockedExitMessage e.unlockCondition) "error" := by
      unfold Game.movePlayer
      rw [hcur, hexit, he]
      simp [hLk]
    exact ⟨hmove, by rw [hmove]; simp [Game.addOutput]⟩

/-- Witness: at the start room no `up` exit is registered (generic
message), and in the lobby the `up` exit to the roof is registered but
locked behind `powerRestored` (flag-specific elevator hint). -/
theorem movePlayer_failure_messages_witness :
    gameStart.movePlayer "up" =
      gameStart.addOutput "You can't go up from here." "error" ∧
    lobbyState.movePlayer "up" =
      lobbyState.addOutput
        "The elevator has no power. You need to restore electricity first."
        "error" ∧
    (lobbyState.movePlayer "up").currentRoomId = "lobby" := by
  have h1 := (movePlayer_failure_messages gameStart securityWired "up"
    rfl).1 (by decide)
  have h2 := (movePlayer_failure_messages lobbyState lobbyWired "up"
    rfl).2 ⟨"roof", true, some "powerRestored"⟩ (by decide) rfl rfl
  exact ⟨h1.1, h2.1, h2.2⟩

lemma applyMods_spec (mods : List (Bool × Int)) :
    ∀ g : Game, 0 ≤ g.health → g.health ≤ g.maxHealth →
    0 ≤ g.energy → g.energy ≤ g.maxEnergy →
    0 ≤ g.maxHealth → 0 ≤ g.maxEnergy →
    (0 ≤ (g.applyMods mods).health ∧
      (g.applyMods mods).health ≤ g.maxHealth) ∧
    (0 ≤ (g.applyMods mods).energy ∧
      (g.applyMods mods).energy ≤ g.maxEnergy) ∧
    (g.applyMods mods).maxHealth = g.maxHealth ∧
    (g.applyMods mods).maxEnergy = g.maxEnergy ∧
    (g.isDead = true → (g.applyMods mods).isDead = true ∧
      (g.applyMods mods).deathCount = g.deathCount) ∧
    (g.isDead = false →
      (g.applyMods mods).deathCount ≤ g.deathCount + 1) := by
  induction mods with
  | nil =>
    intro g h1 h2 h3 h4 h5 h6
    simp [Game.applyMods]
    exact ⟨⟨h1, h2⟩, ⟨h3, h4⟩⟩
  | cons m rest ih =>
    intro g h1 h2 h3 h4 h5 h6
    set g1 := if m.1 = true then g.modifyHealth m.2 else g.modifyEnergy m.2
      with hg1
    have happ : g.applyMods (m :: rest) = g1.applyMods rest := by
      simp only [Game.applyMods, List.foldl_cons, hg1]
    have hfr : g1.maxHealth = g.maxHealth ∧ g1.maxEnergy = g.maxEnergy := by
      by_cases hm : m.1 = true
      · rw [hg1, if_pos hm]
        exact ⟨(modifyHealth_frame g m.2).2.1, (modifyHealth_frame g m.2).2.2.1⟩
      · rw [hg1, if_neg hm]
        exact ⟨(modifyEnergy_frame' g m.2).2.2.1, (modifyEnergy_frame' g m.2).2.2.2.1⟩
    have hb : (0 ≤ g1.health ∧ g1.health ≤ g.maxHealth) ∧
        (0 ≤ g1.energy ∧ g1.energy ≤ g.maxEnergy) := by
      by_cases hm : m.1 = true
      · rw [hg1, if_pos hm]
        constructor
        · rw [modifyHealth_health]
          refine ⟨le_max_left _ _, max_le h5 (min_le_left _ _)⟩
        · rw [(modifyHealth_frame g m.2).1]
          exact ⟨h3, h4⟩
      · rw [hg1, if_neg hm]
        constructor
        · rw [(modifyEnergy_frame' g m.2).1]
          exact ⟨h1, h2⟩
        · rw [modifyEnergy_energy]
          refine ⟨le_max_left _ _, max_le h6 (min_le_left _ _)⟩
    obtain ⟨ihb1, ihb2, ihm1, ihm2, ihdead, ihalive⟩ :=
      ih g1 hb.1.1 (hfr.1 ▸ hb.1.2) hb.2.1 (hfr.2 ▸ hb.2.2)
        (hfr.1 ▸ h5) (hfr.2 ▸ h6)
    rw [happ]
    refine ⟨⟨ihb1.1, hfr.1 ▸ ihb1.2⟩, ⟨ihb2.1, hfr.2 ▸ ihb2.2⟩,
      hfr.1 ▸ ihm1, hfr.2 ▸ ihm2, ?_, ?_⟩
    · intro hgdead
      have hg1dead : g1.isDead = true ∧ g1.deathCount = g.deathCount := by
        by_cases hm : m.1 = true
        · have hgm : g1 = g.modifyHealth m.2 := by rw [hg1, if_pos hm]
          rw [hgm]
          constructor
          · rw [modifyHealth_isDead, hgdead]
            simp
          · rw [modifyHealth_deathCount, hgdead]
            simp
        · have hgm : g1 = g.modifyEnergy m.2 := by rw [hg1, if_neg hm]
          rw [hgm]
          exact ⟨(modifyEnergy_frame' g m.2).2.1 ▸ hgdead,
            (modifyEnergy_frame' g m.2).2.2.2.2.2.1⟩
      obtain ⟨hd1, hd2⟩ := ihdead hg1dead.1
      exact ⟨hd1, hg1dead.2 ▸ hd2⟩
    · intro hgalive
      by_cases hkill : g1.isDead = true
      · obtain ⟨_, hd2⟩ := ihdead hkill
        rw [hd2]
        have : g1.deathCount ≤ g.deathCount + 1 := by
          by_cases hm : m.1 = true
          · have hgm : g1 = g.modifyHealth m.2 := by rw [hg1, if_pos hm]
            rw [hgm, modifyHealth_deathCount]
            split <;> omega
          · have hgm : g1 = g.modifyEnergy m.2 := by rw [hg1, if_neg hm]
            rw [hgm, (modifyEnergy_frame' g m.2).2.2.2.2.2.1]
            omega
        exact this
      · have hg1alive : g1.isDead = false := by
          cases hd : g1.isDead
          · rfl
          · exact absurd hd hkill
        have hcount : g1.deathCount = g.deathCount := by
          by_cases hm : m.1 = true
          · have hgm : g1 = g.modifyHealth m.2 := by rw [hg1, if_pos hm]
            have halive2 : (g.modifyHealth m.2).isDead = false :=
              hgm ▸ hg1alive
            rw [modifyHealth_isDead, hgalive] at halive2
            simp only [Bool.false_or] at halive2
            have hlt : ¬ max 0 (min g.maxHealth (g.health + m.2)) ≤ 0 :=
              of_decide_eq_false halive2
            rw [hgm, modifyHealth_deathCount]
            simp only [hgalive, and_true]
            rw [if_neg hlt]
            omega
          · have hgm : g1 = g.modifyEnergy m.2 := by rw [hg1, if_neg hm]
            rw [hgm, (modifyEnergy_frame' g m.2).2.2.2.2.2.1]
        have := ihalive hg1alive
        omega

/-- C4: along every sequence of `modifyHealth`/`modifyEnergy` calls from
a state whose resources are in range, health stays within
`[0, maxHealth]` and energy within `[0, maxEnergy]`; starting alive, the
death narration is emitted at most once over the whole sequence, and a
single `modifyHealth` triggers it exactly when the clamped health lands
at 0; once dead, no further modification re-triggers it. -/
theorem health_energy_clamped_death_once (g : Game)
    (mods : List (Bool × Int)) (a : Int)
    (h1 : 0 ≤ g.health) (h2 : g.health ≤ g.maxHealth)
    (h3 : 0 ≤ g.energy) (h4 : g.energy ≤ g.maxEnergy)
    (h5 : 0 ≤ g.maxHealth) (h6 : 0 ≤ g.maxEnergy) :
    (0 ≤ (g.applyMods mods).health ∧
      (g.applyMods mods).health ≤ g.maxHealth) ∧
    (0 ≤ (g.applyMods mods).energy ∧
      (g.applyMods mods).energy ≤ g.maxEnergy) ∧
    (g.isDead = false →
      (g.applyMods mods).deathCount ≤ g.deathCount + 1) ∧
    (g.isDead = true →
      (g.applyMods mods).deathCount = g.deathCount) ∧
    (g.isDead = false → ((g.modifyHealth a).isDead = true ↔
      max 0 (min g.maxHealth (g.health + a)) = 0)) ∧
    (g.isDead = false → (g.modifyHealth a).isDead = true →
      (g.modifyHealth a).deathCount = g.deathCount + 1) ∧
    (g.isDead = true →
      (g.modifyHealth a).deathCount = g.deathCount) := by
  obtain ⟨hb1, hb2, _, _, hdead, halive⟩ :=
    applyMods_spec mods g h1 h2 h3 h4 h5 h6
  refine ⟨hb1, hb2, halive, fun hd => (hdead hd).2, ?_, ?_, ?_⟩
  · intro hgalive
    rw [modifyHealth_isDead, hgalive]
    constructor
    · intro h
      simp at h
      have hle : max 0 (min g.maxHealth (g.health + a)) ≤ 0 := by
        rcases h with h | h
        · exact max_le le_rfl (le_trans (min_le_left _ _) h)
        · exact max_le le_rfl (le_trans (min_le_right _ _) h)
      exact le_antisymm hle (le_max_left _ _)
    · intro h
      simp [h]
  · intro hgalive hkill
    rw [modifyHealth_isDead, hgalive] at hkill
    simp at hkill
    rw [modifyHealth_deathCount]
    simp [hkill, hgalive]
  · intro hgdead
    rw [modifyHealth_deathCount, hgdead]
    simp

/-- Witness: from the fresh start state, a -250 hit then a further -5 hit
keep health clamped at 0 and emit the death narration exactly once. -/
theorem health_energy_clamped_death_once_witness :
    (0 ≤ (gameStart.applyMods [(true, -250), (true, -5)]).health ∧
      (gameStart.applyMods [(true, -250), (true, -5)]).health ≤
        gameStart.maxHealth) ∧
    (gameStart.applyMods [(true, -250), (true, -5)]).deathCount ≤
      gameStart.deathCount + 1 := by
  have h := health_energy_clamped_death_once gameStart
    [(true, -250), (true, -5)] (-250) (by decide) (by decide) (by decide)
    (by decide) (by decide) (by decide)
  exact ⟨h.1, h.2.2.1 rfl⟩

lemma collapseCount_setEnergy (g : Game) (e : Int) :
    ({ g with energy := e } : Game).collapseCount = g.collapseCount := by
  simp [Game.collapseCount]

lemma addOutput_energy_health (g : Game) (t c : String) :
    (g.addOutput t c).energy = g.energy ∧
    (g.addOutput t c).health = g.health ∧
    (g.addOutput t c).maxHealth = g.maxHealth ∧
    (g.addOutput t c).maxEnergy = g.maxEnergy := by
  simp [Game.addOutput]

/-- C8: on a hazard tick taken in a disorienting room (archive/tunnel,
not danger-flagged) in a live game, the extra 15-health exhaustion penalty
is applied (and reported) exactly once when the energy drain lands at 0 —
i.e. when the pre-tick energy is ≤ 2 — and not at all otherwise; and a
tick that applies the penalty already ends with energy back at 1 > 0 (the
natural recovery), so the penalty is never re-applied while energy is
still 0: by the time the next tick can fire, energy has risen above 0. -/
theorem exhaustion_penalty_once (g : Game) (room : Room)
    (hroom : g.getRoom g.currentRoomId = some room)
    (hdis : room.id = "archive" ∨ room.id = "tunnel")
    (hdang : room.isDangerous = false)
    (hdead : g.isDead = false) (hwon : g.hasWon = false)
    (hme : g.maxEnergy = 100)
    (he : g.energy ≤ g.maxEnergy)
    (hh : g.health ≤ g.maxHealth) :
    g.tick.collapseCount =
      g.collapseCount + (if g.energy ≤ 2 then 1 else 0) ∧
    (g.energy ≤ 2 → g.tick.energy = 1 ∧
      g.tick.health = max 0 (g.health - 15)) ∧
    (2 < g.energy → g.tick.health = g.health) := by
  have hcur : g.currentRoom = room := by
    unfold Game.currentRoom
    rw [hroom]
    rfl
  have hcondD : (room.id = "archive" || room.id = "tunnel") = true := by
    rcases hdis with h | h <;> simp [h]
  have htick : g.tick = (
      let gE := g.modifyEnergy (-2)
      let gW := if gE.energy > 0 && gE.energy ≤ 20 then
          gE.addOutput "🌀 The disorienting space drains your energy..."
            "danger"
        else gE
      let gP := if gW.energy ≤ 0 then
          (gW.addOutput "You collapse from exhaustion!" "error").modifyHealth
            (-15)
        else gW
      if gP.energy < gP.maxEnergy then
        { gP with energy := min gP.maxEnergy (gP.energy + 1) }
      else gP) := by
    unfold Game.tick
    rw [hcur]
    simp only [hdead, hwon, hdang, hcondD, Bool.or_false, Bool.false_or,
      Bool.or_self, Bool.false_eq_true, if_false, if_true]
  rw [htick]
  dsimp only
  set gE := g.modifyEnergy (-2) with hgE
  have hEe : gE.energy = max 0 (min 100 (g.energy + (-2))) := by
    rw [hgE, modifyEnergy_energy, hme]
  obtain ⟨hEh, _, hEmh, hEme, _, _, hEc⟩ := modifyEnergy_frame' g (-2)
  rw [← hgE] at hEh hEmh hEme hEc
  by_cases hle : g.energy ≤ 2
  · have hE0 : gE.energy = 0 := by
      rw [hEe]
      refine le_antisymm (max_le le_rfl ?_) (le_max_left _ _)
      exact le_trans (min_le_right _ _) (by omega)
    have hW : (if gE.energy > 0 && gE.energy ≤ 20 then
        gE.addOutput "🌀 The disorienting space drains your energy..."
          "danger" else gE) = gE := by
      rw [hE0]
      simp
    rw [hW]
    have hP : (if gE.energy ≤ 0 then
        (gE.addOutput "You collapse from exhaustion!" "error").modifyHealth
          (-15) else gE) =
        (gE.addOutput "You collapse from exhaustion!" "error").modifyHealth
          (-15) := by
      rw [hE0]
      simp
    rw [hP]
    set gA := gE.addOutput "You collapse from exhaustion!" "error" with hgA
    obtain ⟨hAe, hAh, hAmh, hAme⟩ := addOutput_energy_health gE
      "You collapse from exhaustion!" "error"
    rw [← hgA] at hAe hAh hAmh hAme
    set gP := gA.modifyHealth (-15) with hgP
    obtain ⟨hPe, hPmh, hPme, _⟩ := modifyHealth_frame gA (-15)
    rw [← hgP] at hPe hPmh hPme
    have hPenergy : gP.energy = 0 := by rw [hPe, hAe, hE0]
    have hPmaxE : gP.maxEnergy = 100 := by rw [hPme, hAme, hEme, hme]
    have hrec : (if gP.energy < gP.maxEnergy then
        ({ gP with energy := min gP.maxEnergy (gP.energy + 1) } : Game)
        else gP) =
        { gP with energy := min gP.maxEnergy (gP.energy + 1) } := by
      rw [if_pos]
      rw [hPenergy, hPmaxE]
      omega
    rw [hrec]
    refine ⟨?_, ?_, ?_⟩
    · rw [collapseCount_setEnergy, hgP, modifyHealth_collapseCount, hgA]
      rw [(collapseCount_addOutput gE "You collapse from exhaustion!"
        "error").2]
      rw [hEc, if_pos hle]
      simp [collapseLine]
    · intro _
      constructor
      · show ({ gP with energy := min gP.maxEnergy (gP.energy + 1) } :
          Game).energy = 1
        rw [hPenergy, hPmaxE]
        norm_num
      · show ({ gP with energy := min gP.maxEnergy (gP.energy + 1) } :
          Game).health = max 0 (g.health - 15)
        have : gP.health = max 0 (min gA.maxHealth (gA.health + (-15))) := by
          rw [hgP, modifyHealth_health]
        rw [show ({ gP with energy := min gP.maxEnergy (gP.energy + 1) } :
          Game).health = gP.health from rfl, this, hAh, hAmh, hEh, hEmh]
        have hmin : min g.maxHealth (g.health + (-15)) = g.health + (-15) :=
          min_eq_right (by omega)
        rw [hmin, Int.sub_eq_add_neg]
    · intro hgt
      omega
  · have hEpos : gE.energy = g.energy - 2 := by
      rw [hEe]
      have h1 : min 100 (g.energy + (-2)) = g.energy + (-2) :=
        min_eq_right (by omega)
      rw [h1]
      have h2 : max 0 (g.energy + (-2)) = g.energy + (-2) :=
        max_eq_right (by omega)
      rw [h2]
      omega
    have hnotle : ¬ gE.energy ≤ 0 := by
      rw [hEpos]
      omega
    set gW := (if gE.energy > 0 && gE.energy ≤ 20 then
        gE.addOutput "🌀 The disorienting space drains your energy..."
          "danger" else gE) with hgW
    have hWe : gW.energy = gE.energy ∧ gW.health = gE.health ∧
        gW.maxEnergy = gE.maxEnergy ∧ gW.collapseCount = gE.collapseCount := by
      rw [hgW]
      split
      · obtain ⟨w1, w2, _, w4⟩ := addOutput_energy_health gE
          "🌀 The disorienting space drains your energy..." "danger"
        refine ⟨w1, w2, w4, ?_⟩
        rw [(collapseCount_addOutput gE
          "🌀 The disorienting space drains your energy..." "danger").2]
        simp [collapseLine]
      · exact ⟨rfl, rfl, rfl, rfl⟩
    have hP : (if gW.energy ≤ 0 then
        (gW.addOutput "You collapse from exhaustion!" "error").modifyHealth
          (-15) else gW) = gW := by
      rw [if_neg]
      rw [hWe.1]
      exact hnotle
    rw [hP]
    refine ⟨?_, ?_, ?_⟩
    · have hfin : ∀ gZ : Game, (if gZ.energy < gZ.maxEnergy then
          ({ gZ with energy := min gZ.maxEnergy (gZ.energy + 1) } : Game)
          else gZ).collapseCount = gZ.collapseCount := by
        intro gZ
        split
        · rw [collapseCount_setEnergy]
        · rfl
      rw [hfin, hWe.2.2.2, hEc, if_neg hle]
      omega
    · intro hcon
      omega
    · intro _
      have hfin : ∀ gZ : Game, (if gZ.energy < gZ.maxEnergy then
          ({ gZ with energy := min gZ.maxEnergy (gZ.energy + 1) } : Game)
          else gZ).health = gZ.health := by
        intro gZ
        split
        · rfl
        · rfl
      rw [hfin, hWe.2.1, hEh]

/-- Witness: in the archive at 2 energy, one tick reports the collapse
penalty exactly once and ends with energy back at 1. -/
theorem exhaustion_penalty_once_witness :
    archiveState.tick.collapseCount = archiveState.collapseCount + 1 ∧
    archiveState.tick.energy = 1 := by
  have h := exhaustion_penalty_once archiveState archiveWired rfl
    (Or.inl rfl) rfl rfl rfl rfl (by decide) (by decide)
  have hif : (if archiveState.energy ≤ 2 then (1 : Nat) else 0) = 1 := by
    decide
  exact ⟨by rw [h.1, hif], (h.2.1 (by decide)).1⟩

lemma count_eraseIdx_of_getElem {l : List Item} {i : Nat} {x : Item}
    (h : l[i]? = some x) (a : Item) :
    (l.eraseIdx i).count a + (if x = a then 1 else 0) = l.count a := by
  induction l generalizing i with
  | nil => simp at h
  | cons b t ih =>
    cases i with
    | zero =>
      rw [List.getElem?_cons_zero] at h
      injection h with h
      subst h
      show t.count a + _ = _
      by_cases hba : b = a
      · subst hba
        simp [List.count_cons]
      · simp [List.count_cons, hba]
    | succ n =>
      rw [List.getElem?_cons_succ] at h
      have ihh := ih h
      show (b :: t.eraseIdx n).count a + _ = _
      by_cases hba : b = a <;> simp [List.count_cons, hba] <;> omega

lemma removeItem_count {r : Room} {itemId : String} {item : Item}
    {r' : Room} (h : r.removeItem itemId = some (item, r')) (a : Item) :
    (r'.items.count a + (if item = a then 1 else 0) = r.items.count a) ∧
    r'.id = r.id := by
  unfold Room.removeItem at h
  cases hidx : r.items.findIdx? (fun item => item.id = itemId) with
  | none =>
    rw [hidx] at h
    cases h
  | some index =>
    rw [hidx] at h
    dsimp only at h
    cases hget : r.items[index]? with
    | none =>
      rw [hget] at h
      cases h
    | some x =>
      rw [hget] at h
      injection h with h
      have h1 : x = item := congrArg Prod.fst h
      have h2 : ({ r with items := r.items.eraseIdx index } : Room) = r' :=
        congrArg Prod.snd h
      subst h1
      rw [← h2]
      exact ⟨count_eraseIdx_of_getElem hget a, rfl⟩

lemma sum_counts_updateFirst (rooms : List Room) (roomId : String)
    (f : Room → Room) (room : Room)
    (hfind : rooms.find? (fun r => r.id = roomId) = some room)
    (item : Item) :
    ((updateFirstRoom rooms roomId f).map
      (fun r => r.items.count item)).sum + room.items.count item =
    (rooms.map (fun r => r.items.count item)).sum +
      (f room).items.count item := by
  induction rooms with
  | nil => simp [List.find?] at hfind
  | cons r rest ih =>
    by_cases hid : r.id = roomId
    · have hr : r = room := by
        have hf : List.find? (fun r => decide (r.id = roomId)) (r :: rest) =
            some r := List.find?_cons_of_pos _ (by simp [hid])
        rw [hf] at hfind
        injection hfind
      unfold updateFirstRoom
      rw [if_pos hid]
      subst hr
      simp only [List.map_cons, List.sum_cons]
      omega
    · unfold updateFirstRoom
      rw [if_neg hid]
      have hfind' : rest.find? (fun r => r.id = roomId) = some room := by
        rw [List.find?_cons_of_neg _ (by simp [hid])] at hfind
        exact hfind
      have ihh := ih hfind'
      simp only [List.map_cons, List.sum_cons]
      omega

lemma containerCount_addOutput (g : Game) (t c : String) (item : Item) :
    (g.addOutput t c).containerCount item = g.containerCount item := by
  simp [Game.containerCount, Game.addOutput]

lemma containerCount_modifyEnergy (g : Game) (a : Int) (item : Item) :
    (g.modifyEnergy a).containerCount item = g.containerCount item := by
  unfold Game.modifyEnergy
  dsimp only
  split <;> simp [Game.containerCount, Game.addOutput]

/-- C9 (amended): take and drop are atomic ownership transfers — for any
state whose current room is registered, `takeItem` and `dropItem`
preserve the total number of copies of every item value across the player
inventory and all room item lists (an item moves between its room and the
inventory, or nothing changes on the failure paths).  The one-owner half
of the original claim is refuted separately (see the content aliasing
counterexample). -/
theorem take_drop_preserve_item_count (g : Game) (room : Room)
    (itemId : String) (item : Item)
    (hroom : g.getRoom g.currentRoomId = some room) :
    (g.takeItem itemId).containerCount item = g.containerCount item ∧
    (g.dropItem itemId).containerCount item = g.containerCount item := by
  have hcur : g.currentRoom = room := by
    unfold Game.currentRoom
    rw [hroom]
    rfl
  have hfind : g.rooms.find? (fun r => r.id = g.currentRoomId) = some room :=
    hroom
  constructor
  · unfold Game.takeItem
    rw [hcur]
    split
    · rw [containerCount_addOutput]
    · split
      · rw [containerCount_addOutput]
      · split
        · rw [containerCount_addOutput, containerCount_addOutput,
            containerCount_addOutput]
        · cases hrem : room.removeItem itemId with
          | none =>
            rw [containerCount_addOutput]
          | some pair =>
            obtain ⟨item', room'⟩ := pair
            obtain ⟨hcount, _⟩ := removeItem_count hrem item
            rw [containerCount_modifyEnergy, containerCount_addOutput]
            show (({ g.updateRoom g.currentRoomId (fun _ => room') with
              inventory := (g.updateRoom g.currentRoomId
                (fun _ => room')).inventory ++ [item'] } : Game)).containerCount
                item = g.containerCount item
            unfold Game.containerCount Game.updateRoom
            try dsimp only
            rw [List.count_append]
            have hsum := sum_counts_updateFirst g.rooms g.currentRoomId
              (fun _ => room') room hfind item
            try dsimp only at hsum
            rw [List.count_singleton']
            have hone : (if item' == item then (1 : Nat) else 0) =
                (if item' = item then 1 else 0) := by
              by_cases hii : item' = item <;> simp [hii]
            omega
  · unfold Game.dropItem
    split
    · rw [containerCount_addOutput]
    · cases hidx : g.inventory.findIdx? (fun item => item.id = itemId) with
      | none =>
        try dsimp only
        rw [containerCount_addOutput]
      | some index =>
        try dsimp only
        cases hget : g.inventory[index]? with
        | none =>
          rfl
        | some item' =>
          try dsimp only
          rw [containerCount_addOutput]
          unfold Game.containerCount Game.updateRoom
          try dsimp only [Room.addItem]
          have hsum := sum_counts_updateFirst g.rooms g.currentRoomId
            (fun r => ({ r with items := r.items ++ [item'] } : Room)) room
            hfind item
          try dsimp only at hsum
          rw [List.count_append, List.count_singleton'] at hsum
          have herase := count_eraseIdx_of_getElem hget item
          have hone : (if item' == item then (1 : Nat) else 0) =
              (if item' = item then 1 else 0) := by
            by_cases hii : item' = item <;> simp [hii]
          omega

/-- Witness: taking and dropping the security-office coffee preserves the
total number of coffee items across the inventory and all rooms. -/
theorem take_drop_preserve_item_count_witness :
    (gameStart.takeItem "coffee").containerCount coffee =
      gameStart.containerCount coffee ∧
    (gameStart.dropItem "coffee").containerCount coffee =
      gameStart.containerCount coffee :=
  take_drop_preserve_item_count gameStart securityWired "coffee" coffee rfl

lemma length_filterMap_warnings (ids reach : List String) :
    (ids.filterMap (fun roomId => if roomId ∈ reach then none
      else some ("Room " ++ roomId ++ " is unreachable from start"))).length =
    (ids.filter (fun roomId => decide (roomId ∉ reach))).length := by
  induction ids with
  | nil => rfl
  | cons x t ih =>
    by_cases hx : x ∈ reach <;>
      simp [List.filterMap_cons, List.filter_cons, hx, ih]

/-- C7: with at least one room and a start room set, `validate()` reports
exactly one hard error per exit whose destination id is not registered
(`valid` is true iff there is none), and exactly one warning per room
that the BFS over all declared exits does not reach from the start room —
where the BFS-reached set is proven to be exactly the ids reachable from
the start along declared exits (`Relation.ReflTransGen` over the exit
edge relation).  In particular, a graph whose validation has no errors
satisfies graph closure: every exit destination resolves via `getRoom`. -/
theorem validate_reports (g : AdventureGraphV) (s : String)
    (h1 : g.rooms ≠ []) (h2 : g.startRoomId = some s) :
    (g.validate).errors.length = g.brokenExits.length ∧
    ((g.validate).valid = true ↔ g.brokenExits = []) ∧
    (g.validate).warnings.length = ((g.rooms.map Prod.fst).filter
      (fun roomId => decide (roomId ∉ g.bfsReachable))).length ∧
    (∀ roomId, roomId ∈ g.bfsReachable ↔
      Relation.ReflTransGen g.edge s roomId) ∧
    ((g.validate).errors = [] → ∀ p ∈ g.rooms, ∀ de ∈ p.2.exits,
      (g.getRoom de.2).isSome = true) := by
  have hval : g.validate = ⟨(g.brokenExits.map mkBrokenError).isEmpty,
      g.brokenExits.map mkBrokenError,
      (g.rooms.map Prod.fst).filterMap (fun roomId =>
        if roomId ∈ g.bfsReachable then none
        else some ("Room " ++ roomId ++ " is unreachable from start"))⟩ := by
    unfold AdventureGraphV.validate
    rw [if_neg (fun hc => h1 (List.length_eq_zero.mp hc))]
    rw [h2]
    simp
  refine ⟨?_, ?_, ?_, bfsReachable_spec g s h2, ?_⟩
  · rw [hval]
    simp
  · rw [hval]
    simp [List.isEmpty_iff, List.map_eq_nil_iff]
  · rw [hval]
    exact length_filterMap_warnings _ _
  · intro herr p hp de hde
    rw [hval] at herr
    have hbe : g.brokenExits = [] := List.map_eq_nil_iff.mp herr
    have hall : ∀ q ∈ g.rooms, (q.2.exits.filterMap (fun de' =>
        if g.hasRoom de'.2 then none else some (q.2.id, de'.1, de'.2))) = [] :=
      List.flatMap_eq_nil_iff.mp hbe
    have hnone := List.filterMap_eq_nil_iff.mp (hall p hp) de hde
    by_cases hr : g.hasRoom de.2 = true
    · exact hr
    · rw [if_neg hr] at hnone
      cases hnone

/-- Witness: on the concrete three-room graph with one broken exit and
one isolated room, the validation reports the matching error and warning
counts. -/
theorem validate_reports_witness :
    (graphExample.validate).errors.length =
      graphExample.brokenExits.length ∧
    (graphExample.validate).warnings.length =
      ((graphExample.rooms.map Prod.fst).filter
        (fun roomId => decide (roomId ∉ graphExample.bfsReachable))).length ∧
    ((graphExample.validate).valid = true ↔
      graphExample.brokenExits = []) := by
  have h := validate_reports graphExample "a" (by decide) rfl
  exact ⟨h.1, h.2.2.1, h.2.1⟩





